import Mathlib

/-!
Verification development for the nomai-sdk verification engine
(`nomai/verify.py`, `nomai/intents.py`, `nomai/manifest.py`,
`nomai/physics_sanity.py`).

The Python code is shallowly embedded: Python floats are modelled as exact
rationals extended with `nan` and signed infinity (IEEE rounding is not
modelled; none of the verified properties depend on rounding), Python ints
as `ℤ`, Python objects appearing in manifests and intent parameters as the
inductive `Value`, and fallible Python code as `Except PyErr`.
-/

namespace Nomai

/-- Model of a Python float: `nan`, signed infinity, or an exact rational.
IEEE-754 rounding of arithmetic is not modelled (values are kept exact);
comparison semantics (every comparison with `nan` is false except `!=`)
are modelled faithfully. -/
inductive PyNum where
  | nan
  | inf (neg : Bool)
  | fin (q : ℚ)
deriving DecidableEq, Repr

namespace PyNum

/-- Python `==` on floats: `nan` is equal to nothing, including itself. -/
def eqb : PyNum → PyNum → Bool
  | .nan, _ => false
  | _, .nan => false
  | .inf a, .inf b => a == b
  | .inf _, .fin _ => false
  | .fin _, .inf _ => false
  | .fin p, .fin q => p == q

/-- Python `!=` on floats: true whenever either side is `nan`. -/
def neb : PyNum → PyNum → Bool
  | .nan, _ => true
  | _, .nan => true
  | a, b => !(eqb a b)

/-- Python `<` on floats: false whenever either side is `nan`. -/
def ltb : PyNum → PyNum → Bool
  | .nan, _ => false
  | _, .nan => false
  | .inf a, .inf b => a && !b
  | .inf a, .fin _ => a
  | .fin _, .inf b => !b
  | .fin p, .fin q => decide (p < q)

/-- Python `<=` on floats: false whenever either side is `nan`. -/
def leb (a b : PyNum) : Bool := ltb a b || eqb a b

/-- Python unary `abs` on floats. -/
def pabs : PyNum → PyNum
  | .nan => .nan
  | .inf _ => .inf false
  | .fin q => .fin |q|

/-- Python float multiplication (exact on finite values). -/
def mul : PyNum → PyNum → PyNum
  | .nan, _ => .nan
  | _, .nan => .nan
  | .inf a, .inf b => .inf (xor a b)
  | .inf a, .fin q => if q = 0 then .nan else .inf (xor a (decide (q < 0)))
  | .fin q, .inf b => if q = 0 then .nan else .inf (xor b (decide (q < 0)))
  | .fin p, .fin q => .fin (p * q)

/-- Python float subtraction (exact on finite values). -/
def sub : PyNum → PyNum → PyNum
  | .nan, _ => .nan
  | _, .nan => .nan
  | .inf a, .inf b => if a = b then .nan else .inf a
  | .inf a, .fin _ => .inf a
  | .fin _, .inf b => .inf (!b)
  | .fin p, .fin q => .fin (p - q)

/-- Python float division. The embedded evaluator only divides after
guarding the denominator away from zero (Python would raise
ZeroDivisionError there); that unreachable case is mapped to `nan`. -/
def div : PyNum → PyNum → PyNum
  | .nan, _ => .nan
  | _, .nan => .nan
  | .inf _, .inf _ => .nan
  | .inf a, .fin q => if q = 0 then .nan else .inf (xor a (decide (q < 0)))
  | .fin _, .inf _ => .fin 0
  | .fin p, .fin q => if q = 0 then .nan else .fin (p / q)

end PyNum

/-- Model of a Python object as it appears in manifests and intent
parameters: JSON-style data. Dict keys are strings (every dict the SDK
builds or parses has string keys) and are assumed unique, with lookup
returning the first match. -/
inductive Value where
  | none
  | bool (b : Bool)
  | int (n : ℤ)
  | float (x : PyNum)
  | str (s : String)
  | list (xs : List Value)
  | dict (kvs : List (String × Value))

/-- First-match association-list lookup (Python dict indexing). -/
def lookupV : List (String × Value) → String → Option Value
  | [], _ => Option.none
  | (k, v) :: rest, key => if k == key then some v else lookupV rest key

/-- Python `d.get(key)` (default `None`). -/
def dget (kvs : List (String × Value)) (key : String) : Value :=
  (lookupV kvs key).getD Value.none

/-- Python `d.get(key, default)`. -/
def dgetD (kvs : List (String × Value)) (key : String) (dflt : Value) : Value :=
  (lookupV kvs key).getD dflt

/-- Numeric view of a value: Python `isinstance(v, (int, float))` is
satisfied by bools, ints and floats (bool is a subclass of int), and this
returns the value `float(v)` would produce for those. -/
def Value.asNum? : Value → Option PyNum
  | .bool b => some (.fin (if b then 1 else 0))
  | .int n => some (.fin (n : ℚ))
  | .float x => some x
  | _ => Option.none

/-- Python `v is None`. -/
def Value.isNone : Value → Bool
  | .none => true
  | _ => false

/-- Python truthiness of a value. -/
def Value.truthy : Value → Bool
  | .none => false
  | .bool b => b
  | .int n => decide (n ≠ 0)
  | .float .nan => true
  | .float (.inf _) => true
  | .float (.fin q) => decide (q ≠ 0)
  | .str s => !s.isEmpty
  | .list xs => !xs.isEmpty
  | .dict kvs => !kvs.isEmpty

mutual
/-- Python `==` between two values: numeric values compare numerically
across bool/int/float, other types compare structurally, and values of
different (non-numeric) types are unequal. -/
def pyEq (a b : Value) : Bool :=
  match a.asNum?, b.asNum? with
  | some x, some y => x.eqb y
  | _, _ =>
    match a, b with
    | .none, .none => true
    | .str s, .str t => s == t
    | .list xs, .list ys => pyEqList xs ys
    | .dict xs, .dict ys => xs.length == ys.length && pyEqDict xs ys
    | _, _ => false
termination_by structural a

/-- Pointwise Python `==` on lists. -/
def pyEqList : List Value → List Value → Bool
  | [], [] => true
  | x :: xs, y :: ys => pyEq x y && pyEqList xs ys
  | _, _ => false
termination_by structural xs _ => xs

/-- Python dict `==`: every key of the first maps to an equal value in
the second (with the length check done by the caller). -/
def pyEqDict : List (String × Value) → List (String × Value) → Bool
  | [], _ => true
  | (k, v) :: rest, ys =>
    (match lookupV ys k with
     | some w => pyEq v w
     | Option.none => false) && pyEqDict rest ys
termination_by structural xs _ => xs
end

-- ---------------------------------------------------------------------------
-- String helpers (Python str methods used by the engine)
-- ---------------------------------------------------------------------------

/-- Whether `needle` occurs at the head of the character list. -/
def prefixMatch : List Char → List Char → Bool
  | [], _ => true
  | _ :: _, [] => false
  | a :: as, b :: bs => a == b && prefixMatch as bs

/-- Whether `needle` occurs anywhere in the character list. -/
def subMatch (needle : List Char) : List Char → Bool
  | [] => needle.isEmpty
  | c :: rest => prefixMatch needle (c :: rest) || subMatch needle rest

/-- Python `needle in hay` on strings (substring containment). -/
def strContains (hay needle : String) : Bool := subMatch needle.data hay.data

/-- Python `s.lower()`. Modelled per-character with `Char.toLower`
(ASCII case folding; the SDK only lowercases ASCII role names). -/
def strLower (s : String) : String := String.mk (s.data.map Char.toLower)

/-- ASCII whitespace stripped by Python `int(str)` / `float(str)`. -/
def isPyWs (c : Char) : Bool :=
  c == ' ' || c == '\t' || c == '\n' || c == '\r' || c == '\x0b' || c == '\x0c'

/-- Decimal digits with single underscores allowed between digits,
continuing an already-started number (Python int literal syntax). -/
def parseDigitsU (acc : ℕ) : List Char → Option ℕ
  | [] => some acc
  | '_' :: c :: rest =>
    if c.isDigit then parseDigitsU (acc * 10 + (c.toNat - 48)) rest else Option.none
  | ['_'] => Option.none
  | c :: rest =>
    if c.isDigit then parseDigitsU (acc * 10 + (c.toNat - 48)) rest else Option.none

/-- A nonempty digit run (with underscores) starting with a digit. -/
def parseDigitsStart : List Char → Option ℕ
  | [] => Option.none
  | c :: rest => if c.isDigit then parseDigitsU (c.toNat - 48) rest else Option.none

/-- Model of Python `int(s)` for a string `s`: optional whitespace, an
optional sign, then decimal digits with optional single underscores.
Returns `none` where Python raises ValueError. (Non-ASCII digits and
whitespace are not modelled.) -/
def pyIntOfString? (s : String) : Option ℤ :=
  let l := s.data.dropWhile isPyWs
  let l := (l.reverse.dropWhile isPyWs).reverse
  match l with
  | '+' :: rest => (parseDigitsStart rest).map (fun n => (n : ℤ))
  | '-' :: rest => (parseDigitsStart rest).map (fun n => -(n : ℤ))
  | rest => (parseDigitsStart rest).map (fun n => (n : ℤ))

/-- Fractional digits with underscores, accumulating `num / 10^scale`. -/
def parseFracU (num : ℤ) (scale : ℕ) : List Char → Option (ℤ × ℕ)
  | [] => some (num, scale)
  | '_' :: c :: rest =>
    if c.isDigit then parseFracU (num * 10 + (c.toNat - 48 : ℕ)) (scale + 1) rest
    else Option.none
  | ['_'] => Option.none
  | c :: rest =>
    if c.isDigit then parseFracU (num * 10 + (c.toNat - 48 : ℕ)) (scale + 1) rest
    else Option.none

/-- Split a char list at the first occurrence of a separator character. -/
def splitAtChar (sep : Char) : List Char → (List Char × Option (List Char))
  | [] => ([], Option.none)
  | c :: rest =>
    if c == sep then ([], some rest)
    else
      let (pre, post) := splitAtChar sep rest
      (c :: pre, post)

/-- Parse the mantissa of a Python float literal: digits, an optional
point, optional fractional digits. At least one digit must be present. -/
def parseMantissa (l : List Char) : Option ℚ :=
  let (ipart, fpart) := splitAtChar '.' l
  match fpart with
  | Option.none => (parseDigitsStart ipart).map (fun n => (n : ℚ))
  | some f =>
    match ipart, f with
    | [], [] => Option.none
    | [], _ =>
      (parseFracU 0 0 f).bind (fun (num, sc) =>
        if sc = 0 then Option.none else some ((num : ℚ) / (10 : ℚ) ^ sc))
    | _, [] => (parseDigitsStart ipart).map (fun n => (n : ℚ))
    | _, _ =>
      (parseDigitsStart ipart).bind (fun n =>
        (parseFracU 0 0 f).bind (fun (num, sc) =>
          if sc = 0 then Option.none
          else some ((n : ℚ) + (num : ℚ) / (10 : ℚ) ^ sc)))

/-- Parse an optionally signed exponent (digits with underscores). -/
def parseExponent : List Char → Option ℤ
  | '+' :: rest => (parseDigitsStart rest).map (fun n => (n : ℤ))
  | '-' :: rest => (parseDigitsStart rest).map (fun n => -(n : ℤ))
  | rest => (parseDigitsStart rest).map (fun n => (n : ℤ))

/-- An unsigned Python float literal body: mantissa with optional
exponent, or the special words nan/inf/infinity (case-insensitive). -/
def parseFloatBody (l : List Char) : Option PyNum :=
  let low := l.map Char.toLower
  if low = "nan".data then some .nan
  else if low = "inf".data || low = "infinity".data then some (.inf false)
  else
    let (mant, ex) :=
      match splitAtChar 'e' low with
      | (pre, some post) => (pre, some post)
      | (_, Option.none) => (low, Option.none)
    match ex with
    | Option.none => (parseMantissa mant).map PyNum.fin
    | some e =>
      (parseMantissa mant).bind (fun m =>
        (parseExponent e).map (fun k => PyNum.fin (m * (10 : ℚ) ^ (k : ℤ))))

/-- Model of Python `float(s)` for a string `s`.
Returns `none` where Python raises ValueError. -/
def pyFloatOfString? (s : String) : Option PyNum :=
  let l := s.data.dropWhile isPyWs
  let l := (l.reverse.dropWhile isPyWs).reverse
  match l with
  | '+' :: rest => parseFloatBody rest
  | '-' :: rest =>
    (parseFloatBody rest).map (fun x =>
      match x with
      | .nan => .nan
      | .inf _ => .inf true
      | .fin q => .fin (-q))
  | rest => parseFloatBody rest

-- ---------------------------------------------------------------------------
-- Python exceptions and conversions
-- ---------------------------------------------------------------------------

/-- The Python exceptions the embedded code can raise. -/
inductive PyErr where
  | valueError (msg : String)
  | typeError (msg : String)
  | attributeError (msg : String)
  | keyError (key : String)
  | overflowError (msg : String)
  | indexError
deriving DecidableEq, Repr

/-- Truncation toward zero, as Python `int(float)`. -/
def ratTrunc (q : ℚ) : ℤ := if q < 0 then ⌈q⌉ else ⌊q⌋

/-- Python `int(x)` on a float value: truncates; raises on nan/inf. -/
def pyIntOfNum : PyNum → Except PyErr ℤ
  | .nan => .error (.valueError "cannot convert float NaN to integer")
  | .inf _ => .error (.overflowError "cannot convert float infinity to integer")
  | .fin q => .ok (ratTrunc q)

/-- Model of Python `int(x)` on a value. -/
def pyInt : Value → Except PyErr ℤ
  | .bool b => .ok (if b then 1 else 0)
  | .int n => .ok n
  | .float x => pyIntOfNum x
  | .str s =>
    match pyIntOfString? s with
    | some n => .ok n
    | Option.none => .error (.valueError "invalid literal for int() with base 10")
  | _ => .error (.typeError "int() argument must be a string or a number")

/-- Model of Python `float(x)` on a value. -/
def pyFloat : Value → Except PyErr PyNum
  | .bool b => .ok (.fin (if b then 1 else 0))
  | .int n => .ok (.fin (n : ℚ))
  | .float x => .ok x
  | .str s =>
    match pyFloatOfString? s with
    | some x => .ok x
    | Option.none => .error (.valueError "could not convert string to float")
  | _ => .error (.typeError "float() argument must be a string or a number")

-- ---------------------------------------------------------------------------
-- String rendering (Python str()/repr()/format, modelled best-effort)
-- ---------------------------------------------------------------------------

/-- The decimal expansion of `q` with denominator `10^k`, if one exists
with `k ≤ 40`. -/
def decimalDigits (q : ℚ) : Option (ℤ × ℕ) :=
  (List.range 41).findSome? (fun k =>
    let scaled := q * (10 : ℚ) ^ k
    if scaled.den = 1 then some (scaled.num, k) else Option.none)

/-- Print `n / 10^k` as a decimal string with at least one fraction digit. -/
def decimalString (n : ℤ) (k : ℕ) : String :=
  let sign := if n < 0 then "-" else ""
  let m := n.natAbs
  let base := (10 : ℕ) ^ k
  let ip := m / base
  let fp := m % base
  let fracDigits :=
    if k = 0 then "0"
    else
      let raw := Nat.toDigits 10 fp
      let padded := List.replicate (k - raw.length) '0' ++ raw
      -- strip trailing zeros but keep at least one digit
      let trimmed := (padded.reverse.dropWhile (· == '0')).reverse
      if trimmed.isEmpty then "0" else String.mk trimmed
  sign ++ toString ip ++ "." ++ fracDigits

/-- Model of Python `repr(float)`. Exact for values with a finite decimal
expansion; other rationals (which a real Python float can only
approximate) are rendered as a fraction. No verified claim inspects
these strings. -/
def floatRepr : PyNum → String
  | .nan => "nan"
  | .inf true => "-inf"
  | .inf false => "inf"
  | .fin q =>
    match decimalDigits q with
    | some (n, k) => decimalString n k
    | Option.none => toString q.num ++ "/" ++ toString q.den

/-- Model of Python `format(x, ".1f")`: one fraction digit, ties rounded
to even. -/
def formatFixed1 : PyNum → String
  | .nan => "nan"
  | .inf true => "-inf"
  | .inf false => "inf"
  | .fin q =>
    let scaled := q * 10
    let fl : ℤ := ⌊scaled⌋
    let frac := scaled - (fl : ℚ)
    let n : ℤ :=
      if frac > 1 / 2 then fl + 1
      else if frac < 1 / 2 then fl
      else if fl % 2 = 0 then fl else fl + 1
    let sign := if n < 0 then "-" else ""
    let m := n.natAbs
    sign ++ toString (m / 10) ++ "." ++ toString (m % 10)

mutual
/-- Model of Python `str(x)` on a value. -/
def pyStr : Value → String
  | .none => "None"
  | .bool true => "True"
  | .bool false => "False"
  | .int n => toString n
  | .float x => floatRepr x
  | .str s => s
  | .list xs => "[" ++ pyReprList xs ++ "]"
  | .dict kvs => "\x7b" ++ pyReprDict kvs ++ "\x7d"
termination_by structural v => v

/-- Comma-separated reprs of list elements (the repr of a string element
is quoted, inlined here to keep the recursion structural). -/
def pyReprList : List Value → String
  | [] => ""
  | [x] =>
    (match x with
     | .str s => "'" ++ s ++ "'"
     | v => pyStr v)
  | x :: rest =>
    (match x with
     | .str s => "'" ++ s ++ "'"
     | v => pyStr v) ++ ", " ++ pyReprList rest
termination_by structural xs => xs

/-- Comma-separated reprs of dict entries. -/
def pyReprDict : List (String × Value) → String
  | [] => ""
  | [(k, v)] =>
    "'" ++ k ++ "': " ++
    (match v with
     | .str s => "'" ++ s ++ "'"
     | w => pyStr w)
  | (k, v) :: rest =>
    "'" ++ k ++ "': " ++
    (match v with
     | .str s => "'" ++ s ++ "'"
     | w => pyStr w) ++ ", " ++ pyReprDict rest
termination_by structural kvs => kvs
end

/-- Model of Python `repr(x)` (strings are rendered with single quotes
and without escaping, a simplification no claim depends on). -/
def pyRepr : Value → String
  | .str s => "'" ++ s ++ "'"
  | v => pyStr v

-- ---------------------------------------------------------------------------
-- Manifest data model (nomai/manifest.py)
-- ---------------------------------------------------------------------------

/-- `manifest.ComponentChange`: a single component mutation with
causality metadata. `old_value = Value.none` models Python `None`
(initial set); likewise for `new_value` (removal). -/
structure ComponentChange where
  entity_id : ℤ
  component_type_name : String
  old_value : Value
  new_value : Value
  changed_by_system : ℤ
  reason_type : String
  reason_detail : String
  command_index : ℤ
  tick : ℤ

/-- `manifest.GameEvent`: a game event with involved entities. -/
structure GameEvent where
  event_type : String
  description : String
  involved_entities : List ℤ
  caused_by_system : ℤ
  reason_type : String
  reason_detail : String
  tick : ℤ

/-- `manifest.Aggregates`: per-tick aggregate statistics. The Python
string-keyed dicts are association lists with unique keys. -/
structure Aggregates where
  entity_count_by_tier : List (String × ℤ)
  entity_count_by_type : List (String × ℤ)
  total_entity_count : ℤ
  custom : List (String × PyNum)

/-- Python `counts.get(key, 0)` on an integer-valued dict. -/
def lookupCount (m : List (String × ℤ)) (key : String) : ℤ :=
  match m with
  | [] => 0
  | (k, v) :: rest => if k == key then v else lookupCount rest key

/-- `manifest.CausalStep`. -/
structure CausalStep where
  tick : ℤ
  command_index : ℤ
  system_id : ℤ
  reason_type : String
  reason_detail : String
  description : String

/-- `manifest.CausalChain`. -/
structure CausalChain where
  entity_id : ℤ
  component : String
  steps : List CausalStep

/-- `manifest.TickManifest`: the complete manifest for one tick. -/
structure TickManifest where
  tick : ℤ
  sim_time : PyNum
  entity_spawns : List ℤ
  entity_despawns : List ℤ
  component_changes : List ComponentChange
  events : List GameEvent
  aggregates : Aggregates
  systems_executed : List String
  commands_processed : ℤ
  commands_succeeded : ℤ

/-- `verify.IntentResult`: the verification result for a single intent. -/
structure IntentResult where
  intent_name : String
  passed : Bool
  failure_reason : String := ""
  trigger_tick : Option ℤ := Option.none
  evidence : List ComponentChange := []
  causal_chain : Option CausalChain := Option.none
  suggestion : String := ""

/-- `physics_sanity.PhysicsEntityInfo`. -/
structure PhysicsEntityInfo where
  entity_id : ℤ
  body_type : String
  restitution : PyNum
  collider_shape : String

-- ---------------------------------------------------------------------------
-- Intent DSL (nomai/intents.py)
-- ---------------------------------------------------------------------------

/-- `intents.TriggerType`. -/
inductive TriggerType where
  | collision
  | state_transition
  | aggregate_condition
  | component_condition
  | event_occurred
  | tick_reached
  | and
  | or
  | after
deriving DecidableEq, Repr

/-- The wire string of each `TriggerType` (the Python enum value). -/
def TriggerType.value : TriggerType → String
  | .collision => "collision"
  | .state_transition => "state_transition"
  | .aggregate_condition => "aggregate_condition"
  | .component_condition => "component_condition"
  | .event_occurred => "event_occurred"
  | .tick_reached => "tick_reached"
  | .and => "and"
  | .or => "or"
  | .after => "after"

/-- `TriggerType(s)`: enum lookup by value; `none` models the ValueError
Python raises for an unknown variant name. -/
def TriggerType.ofString? (s : String) : Option TriggerType :=
  if s = "collision" then some .collision
  else if s = "state_transition" then some .state_transition
  else if s = "aggregate_condition" then some .aggregate_condition
  else if s = "component_condition" then some .component_condition
  else if s = "event_occurred" then some .event_occurred
  else if s = "tick_reached" then some .tick_reached
  else if s = "and" then some .and
  else if s = "or" then some .or
  else if s = "after" then some .after
  else Option.none

/-- `intents.Trigger`: a trigger expression tree. -/
inductive Trigger where
  | mk (type : TriggerType) (params : List (String × Value)) (children : List Trigger)

/-- The `type` field of a trigger. -/
def Trigger.type : Trigger → TriggerType
  | .mk t _ _ => t

/-- The `params` field of a trigger. -/
def Trigger.params : Trigger → List (String × Value)
  | .mk _ p _ => p

/-- The `children` field of a trigger. -/
def Trigger.children : Trigger → List Trigger
  | .mk _ _ c => c

/-- `intents.ExpectedType`. -/
inductive ExpectedType where
  | component_changed
  | entity_despawned
  | aggregate_changed
  | in_state
  | event_emitted
  | value_relation
  | all
  | any
deriving DecidableEq, Repr

/-- The wire string of each `ExpectedType` (the Python enum value). -/
def ExpectedType.value : ExpectedType → String
  | .component_changed => "component_changed"
  | .entity_despawned => "entity_despawned"
  | .aggregate_changed => "aggregate_changed"
  | .in_state => "in_state"
  | .event_emitted => "event_emitted"
  | .value_relation => "value_relation"
  | .all => "all"
  | .any => "any"

/-- `ExpectedType(s)`: enum lookup by value; `none` models the
ValueError Python raises for an unknown variant name. -/
def ExpectedType.ofString? (s : String) : Option ExpectedType :=
  if s = "component_changed" then some .component_changed
  else if s = "entity_despawned" then some .entity_despawned
  else if s = "aggregate_changed" then some .aggregate_changed
  else if s = "in_state" then some .in_state
  else if s = "event_emitted" then some .event_emitted
  else if s = "value_relation" then some .value_relation
  else if s = "all" then some .all
  else if s = "any" then some .any
  else Option.none

/-- `intents.Expected`: an expected-outcome expression tree. -/
inductive Expected where
  | mk (type : ExpectedType) (params : List (String × Value)) (children : List Expected)

/-- The `type` field of an expected outcome. -/
def Expected.type : Expected → ExpectedType
  | .mk t _ _ => t

/-- The `params` field of an expected outcome. -/
def Expected.params : Expected → List (String × Value)
  | .mk _ p _ => p

/-- The `children` field of an expected outcome. -/
def Expected.children : Expected → List Expected
  | .mk _ _ c => c

-- Constructor helpers from intents.py.

/-- `intents.collision`. -/
def collision (entity_a entity_b : String) : Trigger :=
  .mk .collision [("entity_a", .str entity_a), ("entity_b", .str entity_b)] []

/-- `intents.state_transition`. -/
def state_transition (entity from_state to_state : String) : Trigger :=
  .mk .state_transition
    [("entity", .str entity), ("from_state", .str from_state),
     ("to_state", .str to_state)] []

/-- `intents.aggregate_condition`. -/
def aggregate_condition (entity_type comparison : String) (value : Value) : Trigger :=
  .mk .aggregate_condition
    [("entity_type", .str entity_type), ("comparison", .str comparison),
     ("value", value)] []

/-- `intents.component_condition`. -/
def component_condition (entity component field_name comparison : String)
    (value : Value) : Trigger :=
  .mk .component_condition
    [("entity", .str entity), ("component", .str component),
     ("field", .str field_name), ("comparison", .str comparison),
     ("value", value)] []

/-- `intents.event_occurred` (with `involving` present). -/
def event_occurred_involving (event_type : String) (involving : List String) : Trigger :=
  .mk .event_occurred
    [("event_type", .str event_type),
     ("involving", .list (involving.map Value.str))] []

/-- `intents.event_occurred` (with `involving` omitted). -/
def event_occurred (event_type : String) : Trigger :=
  .mk .event_occurred [("event_type", .str event_type)] []

/-- `intents.tick_reached`. -/
def tick_reached (tick : ℤ) : Trigger :=
  .mk .tick_reached [("tick", .int tick)] []

/-- `intents.and_`. -/
def and_ (triggers : List Trigger) : Trigger := .mk .and [] triggers

/-- `intents.or_`. -/
def or_ (triggers : List Trigger) : Trigger := .mk .or [] triggers

/-- `intents.after`. -/
def after (trigger : Trigger) (delay_ticks : ℤ) : Trigger :=
  .mk .after [("delay_ticks", .int delay_ticks)] [trigger]

/-- `intents.component_changed` (field given, no expected value). -/
def component_changed (entity component field_name : String) : Expected :=
  .mk .component_changed
    [("entity", .str entity), ("component", .str component),
     ("field", .str field_name)] []

/-- `intents.entity_despawned`. -/
def entity_despawned (entity : String) : Expected :=
  .mk .entity_despawned [("entity", .str entity)] []

/-- `intents.aggregate_changed`. -/
def aggregate_changed (entity_type comparison : String) (value : Value) : Expected :=
  .mk .aggregate_changed
    [("entity_type", .str entity_type), ("comparison", .str comparison),
     ("value", value)] []

/-- `intents.in_state`. -/
def in_state (entity component state : String) : Expected :=
  .mk .in_state
    [("entity", .str entity), ("component", .str component),
     ("state", .str state)] []

/-- `intents.event_emitted` (with `involving` omitted). -/
def event_emitted (event_type : String) : Expected :=
  .mk .event_emitted [("event_type", .str event_type)] []

/-- `intents.value_relation`. -/
def value_relation (entity component field_name relation : String)
    (tolerance : PyNum) : Expected :=
  .mk .value_relation
    [("entity", .str entity), ("component", .str component),
     ("field", .str field_name), ("relation", .str relation),
     ("tolerance", .float tolerance)] []

/-- `intents.all_`. -/
def all_ (expectations : List Expected) : Expected := .mk .all [] expectations

/-- `intents.any_`. -/
def any_ (expectations : List Expected) : Expected := .mk .any [] expectations

/-- `intents.IntentKind`. -/
inductive IntentKind where
  | entity
  | behavior
  | metric
  | invariant
deriving DecidableEq, Repr

/-- The wire string of each `IntentKind`. -/
def IntentKind.value : IntentKind → String
  | .entity => "entity"
  | .behavior => "behavior"
  | .metric => "metric"
  | .invariant => "invariant"

/-- `IntentKind(s)`: enum lookup by value. -/
def IntentKind.ofString? (s : String) : Option IntentKind :=
  if s = "entity" then some .entity
  else if s = "behavior" then some .behavior
  else if s = "metric" then some .metric
  else if s = "invariant" then some .invariant
  else Option.none

/-- `intents.IntentSpec`: a single verification intent with its
kind-specific optional fields (defaults as in the Python dataclass). -/
structure IntentSpec where
  name : String
  kind : IntentKind
  description : String
  entity_type : Option String := Option.none
  entity_role : Option String := Option.none
  must_exist : Bool := true
  must_be_visible : Bool := true
  required_components : List String := []
  trigger : Option Trigger := Option.none
  expected : Option Expected := Option.none
  timeout_ticks : ℤ := 600
  metric_entity : Option String := Option.none
  metric_component : Option String := Option.none
  metric_field : Option String := Option.none
  metric_range : Option (PyNum × PyNum) := Option.none
  condition : Option String := Option.none

/-- `intents.VerificationSuite`. -/
structure VerificationSuite where
  name : String
  description : String
  intents : List IntentSpec := []

-- ---------------------------------------------------------------------------
-- Comparison helpers (verify.VerificationEngine._compare and friends)
-- ---------------------------------------------------------------------------

/-- `VerificationEngine._compare`: numeric comparison dispatch on the
operator string; unknown operators log a warning and return false. -/
def compareOp (actual : PyNum) (op : String) (expected : PyNum) : Bool :=
  if op == "==" then actual.eqb expected
  else if op == "!=" then actual.neb expected
  else if op == "<" then actual.ltb expected
  else if op == "<=" then actual.leb expected
  else if op == ">" then expected.ltb actual
  else if op == ">=" then expected.leb actual
  else false

/-- `VerificationEngine._compare_str`: string equality/inequality only. -/
def compareStr (actual op expected : String) : Bool :=
  if op == "==" then actual == expected
  else if op == "!=" then actual != expected
  else false

/-- `VerificationEngine._matches_entity`: the four-branch entity-name
matching heuristic. -/
def matchesEntity (change : ComponentChange) (entity_name : String) : Bool :=
  match pyIntOfString? entity_name with
  | some n => change.entity_id == n
  | Option.none =>
    let detail := strLower change.reason_detail
    let name_lower := strLower entity_name
    if strContains detail name_lower then true
    else if strContains detail ":" then false
    else true

/-- `VerificationEngine._extract_field_value`: `value[field]` for dicts
(`None` when absent), the value itself when the field name is empty,
`None` otherwise. -/
def extractFieldValue (value : Value) (field_name : String) : Value :=
  if field_name == "" then value
  else
    match value with
    | .dict kvs => dget kvs field_name
    | _ => Value.none

-- ---------------------------------------------------------------------------
-- Trigger evaluation (verify.VerificationEngine._check_trigger)
-- ---------------------------------------------------------------------------

/-- `all(name.lower() in search_text for name in involving)`: lazily
lowercases each name, raising AttributeError on a non-string element
exactly where Python would. -/
def allNamesIn : List Value → String → Except PyErr Bool
  | [], _ => .ok true
  | .str s :: rest, search_text =>
    if strContains search_text (strLower s) then allNamesIn rest search_text
    else .ok false
  | _ :: _, _ => .error (.attributeError "lower")

/-- The EVENT_OCCURRED scan over a manifest's events. -/
def eventOccurredLoop (event_type : String) (involving : Value) :
    List GameEvent → Except PyErr Bool
  | [] => .ok false
  | e :: rest =>
    if e.event_type == event_type then
      match involving with
      | .none => .ok true
      | .list names => do
        let search_text := strLower e.reason_detail ++ " " ++ strLower e.description
        if (← allNamesIn names search_text) then .ok true
        else eventOccurredLoop event_type involving rest
      | _ => eventOccurredLoop event_type involving rest
    else eventOccurredLoop event_type involving rest

/-- The COMPONENT_CONDITION scan over a manifest's component changes. -/
def componentConditionLoop (component field_name op : String)
    (expected_value : Value) : List ComponentChange → Bool
  | [] => false
  | c :: rest =>
    if c.component_type_name != component then
      componentConditionLoop component field_name op expected_value rest
    else
      let value := extractFieldValue c.new_value field_name
      if value.isNone then
        componentConditionLoop component field_name op expected_value rest
      else
        match value.asNum?, expected_value.asNum? with
        | some x, some y =>
          if compareOp x op y then true
          else componentConditionLoop component field_name op expected_value rest
        | _, _ =>
          match value, expected_value with
          | .str s, .str t =>
            if compareStr s op t then true
            else componentConditionLoop component field_name op expected_value rest
          | _, _ => componentConditionLoop component field_name op expected_value rest

/-- The COLLISION scan over a manifest's events. -/
def collisionLoop (entity_a entity_b : String) : List GameEvent → Bool
  | [] => false
  | e :: rest =>
    if e.event_type == "collision" then
      let detail := strLower e.reason_detail
      if strContains detail (strLower entity_a) &&
          strContains detail (strLower entity_b) then true
      else collisionLoop entity_a entity_b rest
    else collisionLoop entity_a entity_b rest

/-- The STATE_TRANSITION scan over a manifest's component changes. -/
def stateTransitionLoop (entity_name from_state to_state : String) :
    List ComponentChange → Bool
  | [] => false
  | c :: rest =>
    if pyEq c.old_value (.str from_state) && pyEq c.new_value (.str to_state) then
      if strContains (strLower c.reason_detail) (strLower entity_name) then true
      else stateTransitionLoop entity_name from_state to_state rest
    else stateTransitionLoop entity_name from_state to_state rest

mutual
/-- `VerificationEngine._check_trigger`: evaluate a trigger condition
against a single tick manifest. AFTER returns false at this layer (it is
resolved by the behavior evaluator). -/
def checkTrigger : Trigger → TickManifest → Except PyErr Bool
  | .mk ty ps cs, manifest =>
    match ty with
    | .tick_reached =>
      let target := dgetD ps "tick" (.int 0)
      match target.asNum? with
      | some x => do
        let n ← pyIntOfNum x
        .ok (decide (manifest.tick ≥ n))
      | Option.none => .ok false
    | .event_occurred =>
      let event_type := pyStr (dgetD ps "event_type" (.str ""))
      let involving := dget ps "involving"
      eventOccurredLoop event_type involving manifest.events
    | .component_condition =>
      let component := pyStr (dgetD ps "component" (.str ""))
      let field_name := pyStr (dgetD ps "field" (.str ""))
      let op := pyStr (dgetD ps "comparison" (.str ""))
      let expected_value := dget ps "value"
      .ok (componentConditionLoop component field_name op expected_value
        manifest.component_changes)
    | .aggregate_condition =>
      let entity_type := pyStr (dgetD ps "entity_type" (.str ""))
      let op := pyStr (dgetD ps "comparison" (.str ""))
      let target := dgetD ps "value" (.int 0)
      match target.asNum? with
      | Option.none => .ok false
      | some y =>
        .ok (compareOp
          (.fin (lookupCount manifest.aggregates.entity_count_by_type entity_type))
          op y)
    | .collision =>
      let entity_a := pyStr (dgetD ps "entity_a" (.str ""))
      let entity_b := pyStr (dgetD ps "entity_b" (.str ""))
      .ok (collisionLoop entity_a entity_b manifest.events)
    | .and => checkTriggerAll cs manifest
    | .or => checkTriggerAny cs manifest
    | .state_transition =>
      let entity_name := pyStr (dgetD ps "entity" (.str ""))
      let from_state := pyStr (dgetD ps "from_state" (.str ""))
      let to_state := pyStr (dgetD ps "to_state" (.str ""))
      .ok (stateTransitionLoop entity_name from_state to_state
        manifest.component_changes)
    | .after => .ok false
termination_by structural t _ => t

/-- Short-circuit `all(check(child) for child in children)`. -/
def checkTriggerAll : List Trigger → TickManifest → Except PyErr Bool
  | [], _ => .ok true
  | t :: ts, manifest => do
    if (← checkTrigger t manifest) then checkTriggerAll ts manifest else .ok false
termination_by structural ts _ => ts

/-- Short-circuit `any(check(child) for child in children)`. -/
def checkTriggerAny : List Trigger → TickManifest → Except PyErr Bool
  | [], _ => .ok false
  | t :: ts, manifest => do
    if (← checkTrigger t manifest) then .ok true else checkTriggerAny ts manifest
termination_by structural ts _ => ts
end

-- ---------------------------------------------------------------------------
-- Expected-outcome evaluation (verify.VerificationEngine._check_expected)
-- ---------------------------------------------------------------------------

/-- The COMPONENT_CHANGED scan over a manifest's component changes:
matching component (and entity when the name is truthy); with a field,
the new field value must exist and differ from an existing old field
value; an `expected_value` must be matched exactly; with neither, the
raw values must differ unless `old_value` is `None`. -/
def componentChangedLoop (component : String)
    (field_name expected_value entity_name : Value) :
    List ComponentChange → Bool
  | [] => false
  | c :: rest =>
    if c.component_type_name != component then
      componentChangedLoop component field_name expected_value entity_name rest
    else if entity_name.truthy && !(matchesEntity c (pyStr entity_name)) then
      componentChangedLoop component field_name expected_value entity_name rest
    else if !field_name.isNone then
      let new_val := extractFieldValue c.new_value (pyStr field_name)
      if new_val.isNone then
        componentChangedLoop component field_name expected_value entity_name rest
      else
        let old_val := extractFieldValue c.old_value (pyStr field_name)
        if !old_val.isNone && pyEq old_val new_val then
          componentChangedLoop component field_name expected_value entity_name rest
        else if !expected_value.isNone && !(pyEq new_val expected_value) then
          componentChangedLoop component field_name expected_value entity_name rest
        else true
    else if !expected_value.isNone then
      if !(pyEq c.new_value expected_value) then
        componentChangedLoop component field_name expected_value entity_name rest
      else true
    else
      if !c.old_value.isNone && pyEq c.old_value c.new_value then
        componentChangedLoop component field_name expected_value entity_name rest
      else true

/-- The ENTITY_DESPAWNED event scan: an event mentioning the entity name
whose involved entities include a despawned id. -/
def despawnEventLoop (entity_name : String) (despawns : List ℤ) :
    List GameEvent → Bool
  | [] => false
  | e :: rest =>
    let search_text := strLower (e.description ++ " " ++ e.reason_detail)
    if strContains search_text (strLower entity_name) &&
        e.involved_entities.any (fun eid => despawns.contains eid) then true
    else despawnEventLoop entity_name despawns rest

/-- The ENTITY_DESPAWNED component-change scan: identity changes on a
despawned entity whose role or type matches, or a reason-detail mention. -/
def despawnChangeLoop (entity_name : String) (despawns : List ℤ) :
    List ComponentChange → Bool
  | [] => false
  | c :: rest =>
    if !(despawns.contains c.entity_id) then
      despawnChangeLoop entity_name despawns rest
    else
      let identityHit :=
        c.component_type_name == "identity" &&
        (match c.new_value with
         | .dict kvs =>
           let role := pyStr (dgetD kvs "role" (.str ""))
           let etype := pyStr (dgetD kvs "entity_type" (.str ""))
           strLower entity_name == strLower role ||
           strLower entity_name == strLower etype
         | _ => false)
      if identityHit then true
      else if strContains (strLower c.reason_detail) (strLower entity_name) then true
      else despawnChangeLoop entity_name despawns rest

/-- The EVENT_EMITTED scan: any event of the given type. -/
def eventEmittedLoop (event_type : String) : List GameEvent → Bool
  | [] => false
  | e :: rest => if e.event_type == event_type then true
    else eventEmittedLoop event_type rest

/-- The IN_STATE scan: a change of the component whose new value equals
the state string. -/
def inStateLoop (component state : String) : List ComponentChange → Bool
  | [] => false
  | c :: rest =>
    if c.component_type_name == component && pyEq c.new_value (.str state) then true
    else inStateLoop component state rest

/-- The VALUE_RELATION scan over a manifest's component changes. -/
def valueRelationLoop (component field_name relation : String)
    (entity_name : Value) (tolerance : PyNum) : List ComponentChange → Bool
  | [] => false
  | c :: rest =>
    if c.component_type_name != component then
      valueRelationLoop component field_name relation entity_name tolerance rest
    else if entity_name.truthy && !(matchesEntity c (pyStr entity_name)) then
      valueRelationLoop component field_name relation entity_name tolerance rest
    else
      match (extractFieldValue c.old_value field_name).asNum?,
          (extractFieldValue c.new_value field_name).asNum? with
      | some old_f, some new_f =>
        if relation == "sign_flipped" then
          if (old_f.mul new_f).ltb (.fin 0) then true
          else valueRelationLoop component field_name relation entity_name tolerance rest
        else if relation == "magnitude_preserved" then
          if PyNum.ltb (.fin 0) old_f.pabs then
            if ((new_f.pabs.sub old_f.pabs).pabs.div old_f.pabs).leb tolerance then true
            else valueRelationLoop component field_name relation entity_name tolerance rest
          else valueRelationLoop component field_name relation entity_name tolerance rest
        else if relation == "increased" then
          if old_f.ltb new_f then true
          else valueRelationLoop component field_name relation entity_name tolerance rest
        else if relation == "decreased" then
          if new_f.ltb old_f then true
          else valueRelationLoop component field_name relation entity_name tolerance rest
        else if relation == "changed_by_more_than" then
          if tolerance.ltb (new_f.sub old_f).pabs then true
          else valueRelationLoop component field_name relation entity_name tolerance rest
        else valueRelationLoop component field_name relation entity_name tolerance rest
      | _, _ =>
        valueRelationLoop component field_name relation entity_name tolerance rest

mutual
/-- `VerificationEngine._check_expected`: evaluate an expected outcome
against a single tick manifest. -/
def checkExpected : Expected → TickManifest → Except PyErr Bool
  | .mk ty ps cs, manifest =>
    match ty with
    | .component_changed =>
      let component := pyStr (dgetD ps "component" (.str ""))
      let field_name := dget ps "field"
      let expected_value := dget ps "expected_value"
      let entity_name := dget ps "entity"
      .ok (componentChangedLoop component field_name expected_value entity_name
        manifest.component_changes)
    | .entity_despawned =>
      let entity_name := pyStr (dgetD ps "entity" (.str ""))
      if manifest.entity_despawns.isEmpty then .ok false
      else if despawnEventLoop entity_name manifest.entity_despawns manifest.events then
        .ok true
      else if despawnChangeLoop entity_name manifest.entity_despawns
          manifest.component_changes then
        .ok true
      else if manifest.entity_despawns.any (fun eid => toString eid == entity_name) then
        .ok true
      else .ok false
    | .event_emitted =>
      let event_type := pyStr (dgetD ps "event_type" (.str ""))
      .ok (eventEmittedLoop event_type manifest.events)
    | .aggregate_changed =>
      let entity_type := pyStr (dgetD ps "entity_type" (.str ""))
      let op := pyStr (dgetD ps "comparison" (.str ""))
      let target := dgetD ps "value" (.int 0)
      match target.asNum? with
      | Option.none => .ok false
      | some y =>
        .ok (compareOp
          (.fin (lookupCount manifest.aggregates.entity_count_by_type entity_type))
          op y)
    | .in_state =>
      let component := pyStr (dgetD ps "component" (.str ""))
      let state := pyStr (dgetD ps "state" (.str ""))
      .ok (inStateLoop component state manifest.component_changes)
    | .value_relation => do
      let entity_name := dget ps "entity"
      let component := pyStr (dgetD ps "component" (.str ""))
      let field_name := pyStr (dgetD ps "field" (.str ""))
      let relation := pyStr (dgetD ps "relation" (.str ""))
      let tolerance ← pyFloat (dgetD ps "tolerance" (.float (.fin (1 / 10))))
      .ok (valueRelationLoop component field_name relation entity_name tolerance
        manifest.component_changes)
    | .all => checkExpectedAll cs manifest
    | .any => checkExpectedAny cs manifest
termination_by structural e _ => e

/-- Short-circuit `all(check(child) for child in children)`. -/
def checkExpectedAll : List Expected → TickManifest → Except PyErr Bool
  | [], _ => .ok true
  | e :: es, manifest => do
    if (← checkExpected e manifest) then checkExpectedAll es manifest else .ok false
termination_by structural es _ => es

/-- Short-circuit `any(check(child) for child in children)`. -/
def checkExpectedAny : List Expected → TickManifest → Except PyErr Bool
  | [], _ => .ok false
  | e :: es, manifest => do
    if (← checkExpected e manifest) then .ok true else checkExpectedAny es manifest
termination_by structural es _ => es
end

-- ---------------------------------------------------------------------------
-- Behavior verification (verify.VerificationEngine._verify_behavior)
-- ---------------------------------------------------------------------------

/-- Python list indexing with an int index: a negative index counts from
the end; out of range raises IndexError. -/
def pyIndex {α : Type} (l : List α) (i : ℤ) : Except PyErr α :=
  if 0 ≤ i then
    match l.get? i.toNat with
    | some x => .ok x
    | Option.none => .error .indexError
  else
    let j := (l.length : ℤ) + i
    if 0 ≤ j then
      match l.get? j.toNat with
      | some x => .ok x
      | Option.none => .error .indexError
    else .error .indexError

/-- Python `range(a, b)` as a list of integers. -/
def intRange (a b : ℤ) : List ℤ :=
  (List.range (b - a).toNat).map (fun k : ℕ => a + (k : ℤ))

/-- Phase 1 of `_verify_behavior` for non-AFTER triggers: the index of
the first manifest where the trigger fires (enumerating from `start`). -/
def triggerScanFrom (t : Trigger) (start : ℕ) :
    List TickManifest → Except PyErr (Option ℕ)
  | [] => .ok Option.none
  | m :: rest =>
    match checkTrigger t m with
    | .error err => .error err
    | .ok true => .ok (some start)
    | .ok false => triggerScanFrom t (start + 1) rest

/-- `VerificationEngine._resolve_after_trigger`: find the child trigger's
first index, add the delay, and guard only against running past the end
of the manifest list. Returns `(resolved_index?, failure_reason)`. -/
def resolveAfterTrigger (trigger : Trigger) (manifests : List TickManifest) :
    Except PyErr (Option ℤ × String) :=
  match trigger with
  | .mk ty ps cs =>
    match ty, cs with
    | .after, child :: _ =>
      let raw_delay := dgetD ps "delay_ticks" (.int 0)
      match (match raw_delay with
             | Value.none => Except.ok (0 : ℤ)
             | v => pyInt v) with
      | .error err => .error err
      | .ok delay =>
        match triggerScanFrom child 0 manifests with
        | .error err => .error err
        | .ok Option.none => .ok (Option.none, "child trigger never fired")
        | .ok (some child_idx) =>
          let resolved_idx : ℤ := (child_idx : ℤ) + delay
          if resolved_idx ≥ (manifests.length : ℤ) then
            .ok (Option.none,
              "child trigger fired at tick index " ++ toString child_idx ++
              " but delay of " ++ toString delay ++
              " ticks exceeds available manifests (need index " ++
              toString resolved_idx ++ ", have " ++ toString manifests.length ++ ")")
          else .ok (some resolved_idx, "")
    | _, _ => .ok (Option.none, "trigger is not AFTER or has no children")

/-- Phase 2 of `_verify_behavior`: scan the index window for the first
manifest satisfying the expected outcome. -/
def behaviorExpectedLoop (intent_name : String) (expd : Expected)
    (timeout trigger_tick : ℤ) (manifests : List TickManifest) :
    List ℤ → Except PyErr IntentResult
  | [] =>
    .ok { intent_name := intent_name, passed := false,
          trigger_tick := some trigger_tick,
          failure_reason :=
            "Expected outcome '" ++ expd.type.value ++ "' not met within " ++
            toString timeout ++ " ticks after trigger at tick " ++
            toString trigger_tick,
          suggestion :=
            "The trigger fired but the expected outcome was not observed. " ++
            "Check the gameplay logic that should respond to the trigger event." }
  | idx :: rest =>
    match pyIndex manifests idx with
    | .error err => .error err
    | .ok manifest =>
      match checkExpected expd manifest with
      | .error err => .error err
      | .ok true =>
        .ok { intent_name := intent_name, passed := true,
              trigger_tick := some trigger_tick,
              evidence := manifest.component_changes }
      | .ok false =>
        behaviorExpectedLoop intent_name expd timeout trigger_tick manifests rest

/-- The shared tail of `_verify_behavior` after the trigger index is
resolved: read the trigger tick (Python indexing), then scan
`range(trigger_tick_idx, min(trigger_tick_idx + timeout, len))`. -/
def behaviorPhase2 (intent : IntentSpec) (expd : Expected)
    (manifests : List TickManifest) (trigger_tick_idx : ℤ) :
    Except PyErr IntentResult :=
  match pyIndex manifests trigger_tick_idx with
  | .error err => .error err
  | .ok m =>
    behaviorExpectedLoop intent.name expd intent.timeout_ticks m.tick manifests
      (intRange trigger_tick_idx
        (min (trigger_tick_idx + intent.timeout_ticks) (manifests.length : ℤ)))

/-- `VerificationEngine._verify_behavior`: two-phase behavior check.
Returns `Except` because the Python code can raise (an IndexError from a
negative AFTER resolution, or conversion errors from malformed params). -/
def verifyBehavior (intent : IntentSpec) (manifests : List TickManifest) :
    Except PyErr IntentResult :=
  match intent.trigger with
  | Option.none =>
    .ok { intent_name := intent.name, passed := false,
          failure_reason := "Behavior intent has no trigger defined",
          suggestion := "Define a trigger for this behavior intent." }
  | some trig =>
    match intent.expected with
    | Option.none =>
      .ok { intent_name := intent.name, passed := false,
            failure_reason := "Behavior intent has no expected outcome defined",
            suggestion := "Define an expected outcome for this behavior intent." }
    | some expd =>
      if trig.type == .after then
        match resolveAfterTrigger trig manifests with
        | .error err => .error err
        | .ok (Option.none, after_reason) =>
          .ok { intent_name := intent.name, passed := false,
                failure_reason := "After trigger failed: " ++ after_reason,
                suggestion :=
                  "Ensure the child trigger condition occurs during simulation " ++
                  "and the delay does not exceed the simulation length." }
        | .ok (some idx, _) => behaviorPhase2 intent expd manifests idx
      else
        match triggerScanFrom trig 0 manifests with
        | .error err => .error err
        | .ok Option.none =>
          .ok { intent_name := intent.name, passed := false,
                failure_reason :=
                  "Trigger '" ++ trig.type.value ++ "' never fired across " ++
                  toString manifests.length ++ " ticks",
                suggestion :=
                  "Ensure the game state produces the trigger condition. " ++
                  "Check that the relevant entities exist and interact correctly." }
        | .ok (some i) => behaviorPhase2 intent expd manifests (i : ℤ)

-- ---------------------------------------------------------------------------
-- Metric verification (verify.VerificationEngine._verify_metric)
-- ---------------------------------------------------------------------------

/-- The inner change scan of `_verify_metric` for one manifest: the first
numeric field value outside the range yields the failure result. -/
def metricScanChanges (intent_name entity_name component field_name : String)
    (range_min range_max : PyNum) (tick : ℤ) :
    List ComponentChange → Option IntentResult
  | [] => Option.none
  | change :: rest =>
    if change.component_type_name != component then
      metricScanChanges intent_name entity_name component field_name
        range_min range_max tick rest
    else
      let value := extractFieldValue change.new_value field_name
      if value.isNone then
        metricScanChanges intent_name entity_name component field_name
          range_min range_max tick rest
      else
        match value.asNum? with
        | Option.none =>
          metricScanChanges intent_name entity_name component field_name
            range_min range_max tick rest
        | some x =>
          if x.ltb range_min || range_max.ltb x then
            some { intent_name := intent_name, passed := false,
                   trigger_tick := some tick,
                   failure_reason :=
                     "Metric '" ++ field_name ++ "' on '" ++ entity_name ++ "." ++
                     component ++ "' value " ++ pyStr value ++ " out of range [" ++
                     floatRepr range_min ++ ", " ++ floatRepr range_max ++
                     "] at tick " ++ toString tick,
                   evidence := [change],
                   suggestion :=
                     "Clamp or limit the '" ++ field_name ++ "' value of '" ++
                     component ++ "' to stay within [" ++ floatRepr range_min ++
                     ", " ++ floatRepr range_max ++ "]." }
          else
            metricScanChanges intent_name entity_name component field_name
              range_min range_max tick rest

/-- The manifest scan of `_verify_metric`. -/
def metricScan (intent_name entity_name component field_name : String)
    (range_min range_max : PyNum) : List TickManifest → IntentResult
  | [] => { intent_name := intent_name, passed := true }
  | manifest :: rest =>
    match metricScanChanges intent_name entity_name component field_name
        range_min range_max manifest.tick manifest.component_changes with
    | some r => r
    | Option.none =>
      metricScan intent_name entity_name component field_name
        range_min range_max rest

/-- `VerificationEngine._verify_metric`. -/
def verifyMetric (intent : IntentSpec) (manifests : List TickManifest) :
    IntentResult :=
  match intent.metric_range with
  | Option.none =>
    { intent_name := intent.name, passed := false,
      failure_reason := "Metric intent has no metric_range defined" }
  | some (range_min, range_max) =>
    let entity_name := intent.metric_entity.getD ""
    let component := intent.metric_component.getD ""
    let field_name := intent.metric_field.getD ""
    metricScan intent.name entity_name component field_name
      range_min range_max manifests

-- ---------------------------------------------------------------------------
-- Physics sanity: no-tunneling check
-- (physics_sanity.PhysicsSanityChecker.check_no_tunneling)
-- ---------------------------------------------------------------------------

/-- The tracked last-known velocity per entity: `dict[int, dict[str, float]]`. -/
def VelState := List (ℤ × List (String × PyNum))

/-- Lookup in the velocity state (first match; updates prepend). -/
def velLookup : List (ℤ × List (String × PyNum)) → ℤ →
    Option (List (String × PyNum))
  | [], _ => Option.none
  | (k, v) :: rest, key => if k == key then some v else velLookup rest key

/-- `vel.get(vel_axis, 0.0)` on a velocity dict. -/
def velAxisGet : List (String × PyNum) → String → PyNum
  | [], _ => .fin 0
  | (k, v) :: rest, key => if k == key then v else velAxisGet rest key

/-- One axis of the tunneling test on a position change: with `speed` the
absolute last-known velocity on the axis, emit a failure result exactly
when `speed * dt * 2 > 0` and the absolute position delta exceeds it. -/
def tunnelAxis (dt : PyNum) (vel : List (String × PyNum))
    (old_pos new_pos : List (String × Value)) (eid tick : ℤ)
    (axis vel_axis : String) : List IntentResult :=
  match (dget old_pos axis).asNum?, (dget new_pos axis).asNum? with
  | some o, some n =>
    let speed := (velAxisGet vel vel_axis).pabs
    let max_displacement := (speed.mul dt).mul (.fin 2)
    let actual := (n.sub o).pabs
    if PyNum.ltb (.fin 0) max_displacement && max_displacement.ltb actual then
      [{ intent_name := "physics_sanity:no_tunneling(entity_" ++ toString eid ++ ")",
         passed := false,
         trigger_tick := some tick,
         failure_reason :=
           "Dynamic entity " ++ toString eid ++ " moved " ++ formatFixed1 actual ++
           " on " ++ axis ++ "-axis at tick " ++ toString tick ++
           ", but max expected displacement is " ++ formatFixed1 max_displacement ++
           " (speed=" ++ formatFixed1 speed ++ ", dt=" ++ floatRepr dt ++ ")",
         suggestion :=
           "Large position jumps may indicate tunneling through collision " ++
           "geometry. Consider enabling CCD (continuous collision detection) " ++
           "or reducing the timestep." }]
    else []
  | _, _ => []

/-- Processing of one component change inside `check_no_tunneling`:
velocity changes update the tracked state, position changes emit axis
failures. Non-dynamic entities are skipped by the caller. -/
def tunnelChange (dt : PyNum) (tick : ℤ) (state : List (ℤ × List (String × PyNum)))
    (change : ComponentChange) :
    List (ℤ × List (String × PyNum)) × List IntentResult :=
  let state1 :=
    if change.component_type_name == "velocity" then
      match change.new_value with
      | .dict kvs =>
        (change.entity_id,
          kvs.filterMap (fun kv => (kv.2.asNum?).map (fun x => (kv.1, x)))) :: state
      | _ => state
    else state
  let results :=
    if change.component_type_name == "position" then
      match change.old_value, change.new_value with
      | .dict old_pos, .dict new_pos =>
        let vel := (velLookup state1 change.entity_id).getD []
        tunnelAxis dt vel old_pos new_pos change.entity_id tick "x" "dx" ++
        tunnelAxis dt vel old_pos new_pos change.entity_id tick "y" "dy"
      | _, _ => []
    else []
  (state1, results)

/-- The change loop of `check_no_tunneling` over one manifest. -/
def tunnelChangesLoop (dt : PyNum) (dynamic_ids : List ℤ) (tick : ℤ) :
    List (ℤ × List (String × PyNum)) → List ComponentChange →
    List (ℤ × List (String × PyNum)) × List IntentResult
  | st, [] => (st, [])
  | st, c :: rest =>
    if !(dynamic_ids.contains c.entity_id) then
      tunnelChangesLoop dt dynamic_ids tick st rest
    else
      let (st1, rs) := tunnelChange dt tick st c
      let (st2, rs') := tunnelChangesLoop dt dynamic_ids tick st1 rest
      (st2, rs ++ rs')

/-- The manifest loop of `check_no_tunneling`. -/
def tunnelManifestsLoop (dt : PyNum) (dynamic_ids : List ℤ) :
    List (ℤ × List (String × PyNum)) → List TickManifest →
    List (ℤ × List (String × PyNum)) × List IntentResult
  | st, [] => (st, [])
  | st, m :: rest =>
    let (st1, rs) := tunnelChangesLoop dt dynamic_ids m.tick st m.component_changes
    let (st2, rs') := tunnelManifestsLoop dt dynamic_ids st1 rest
    (st2, rs ++ rs')

/-- `PhysicsSanityChecker.check_no_tunneling` with explicit `dt`
(the Python parameter defaults to 1/60; see `checkNoTunnelingD`). -/
def checkNoTunneling (registry : List (ℤ × PhysicsEntityInfo))
    (manifests : List TickManifest) (dt : PyNum) : List IntentResult :=
  let dynamic_ids :=
    (registry.filter (fun p => p.2.body_type == "dynamic")).map (fun p => p.1)
  if dynamic_ids.isEmpty then []
  else (tunnelManifestsLoop dt dynamic_ids [] manifests).2

/-- `check_no_tunneling` at its default timestep `dt = 1.0 / 60.0`. -/
def checkNoTunnelingD (registry : List (ℤ × PhysicsEntityInfo))
    (manifests : List TickManifest) : List IntentResult :=
  checkNoTunneling registry manifests (.fin (1 / 60))

-- ---------------------------------------------------------------------------
-- JSON (Python json.dumps with compact separators, and json.loads)
-- ---------------------------------------------------------------------------

/-- Lowercase hex digit. -/
def hexDigit (n : ℕ) : Char :=
  if n < 10 then Char.ofNat (48 + n) else Char.ofNat (87 + n)

/-- Four lowercase hex digits. -/
def hex4 (n : ℕ) : String :=
  String.mk [hexDigit (n / 4096 % 16), hexDigit (n / 256 % 16),
             hexDigit (n / 16 % 16), hexDigit (n % 16)]

/-- The JSON escape of one character under `ensure_ascii=True` (the
`json.dumps` default): specials, control characters and non-ASCII become
escapes, with surrogate pairs above U+FFFF. -/
def jsonEscapeChar (c : Char) : String :=
  if c == '"' then "\\\""
  else if c == '\\' then "\\\\"
  else if c == '\n' then "\\n"
  else if c == '\r' then "\\r"
  else if c == '\t' then "\\t"
  else if c == '\x08' then "\\b"
  else if c == '\x0c' then "\\f"
  else if c.toNat < 0x20 then "\\u" ++ hex4 c.toNat
  else if c.toNat < 0x7f then String.mk [c]
  else if c.toNat ≤ 0xffff then "\\u" ++ hex4 c.toNat
  else
    let v := c.toNat - 0x10000
    "\\u" ++ hex4 (0xd800 + v / 0x400) ++ "\\u" ++ hex4 (0xdc00 + v % 0x400)

/-- A JSON string literal for `s`. -/
def jsonQuote (s : String) : String :=
  "\"" ++ String.join (s.data.map jsonEscapeChar) ++ "\""

mutual
/-- Model of Python `json.dumps(v, separators=(",", ":"))`: the compact
wire encoding `_parse_reason` uses for structured payloads. -/
def jsonDumps : Value → String
  | .none => "null"
  | .bool true => "true"
  | .bool false => "false"
  | .int n => toString n
  | .float .nan => "NaN"
  | .float (.inf true) => "-Infinity"
  | .float (.inf false) => "Infinity"
  | .float (.fin q) => floatRepr (.fin q)
  | .str s => jsonQuote s
  | .list xs => "[" ++ jsonDumpsList xs ++ "]"
  | .dict kvs => "\x7b" ++ jsonDumpsDict kvs ++ "\x7d"
termination_by structural v => v

/-- Comma-joined element encodings. -/
def jsonDumpsList : List Value → String
  | [] => ""
  | [x] => jsonDumps x
  | x :: rest => jsonDumps x ++ "," ++ jsonDumpsList rest
termination_by structural xs => xs

/-- Comma-joined `"key":value` encodings. -/
def jsonDumpsDict : List (String × Value) → String
  | [] => ""
  | [(k, v)] => jsonQuote k ++ ":" ++ jsonDumps v
  | (k, v) :: rest => jsonQuote k ++ ":" ++ jsonDumps v ++ "," ++ jsonDumpsDict rest
termination_by structural kvs => kvs
end

/-- JSON whitespace. -/
def isJsonWs (c : Char) : Bool :=
  c == ' ' || c == '\t' || c == '\n' || c == '\r'

/-- The value of a hex digit, if any. -/
def hexVal? (c : Char) : Option ℕ :=
  if '0' ≤ c && c ≤ '9' then some (c.toNat - 48)
  else if 'a' ≤ c && c ≤ 'f' then some (c.toNat - 87)
  else if 'A' ≤ c && c ≤ 'F' then some (c.toNat - 70)
  else Option.none

/-- Four hex digits. -/
def hex4Val? : List Char → Option (ℕ × List Char)
  | a :: b :: c :: d :: rest =>
    match hexVal? a, hexVal? b, hexVal? c, hexVal? d with
    | some x, some y, some z, some w => some (((x * 16 + y) * 16 + z) * 16 + w, rest)
    | _, _, _, _ => Option.none
  | _ => Option.none

/-- The body of a JSON string literal after the opening quote. Control
characters are rejected (Python's strict mode); `\\uXXXX` escapes are
decoded, combining surrogate pairs (a lone surrogate is rejected, where
Python would produce a surrogate code unit that `Char` cannot hold). -/
def jsonParseString : List Char → Option (String × List Char)
  | [] => Option.none
  | c :: rest =>
    if c == '"' then some ("", rest)
    else if c == '\\' then
      match rest with
      | [] => Option.none
      | e :: rest2 =>
        let simple : Option Char :=
          if e == '"' then some '"'
          else if e == '\\' then some '\\'
          else if e == '/' then some '/'
          else if e == 'b' then some '\x08'
          else if e == 'f' then some '\x0c'
          else if e == 'n' then some '\n'
          else if e == 'r' then some '\r'
          else if e == 't' then some '\t'
          else Option.none
        match simple with
        | some ch =>
          (jsonParseString rest2).map (fun (s, r) => (String.mk [ch] ++ s, r))
        | Option.none =>
          if e == 'u' then
            match rest2 with
            | h1 :: h2 :: h3 :: h4 :: rest3 =>
              match hexVal? h1, hexVal? h2, hexVal? h3, hexVal? h4 with
              | some x1, some x2, some x3, some x4 =>
                let n := ((x1 * 16 + x2) * 16 + x3) * 16 + x4
                if 0xd800 ≤ n && n ≤ 0xdbff then
                  match rest3 with
                  | '\\' :: 'u' :: g1 :: g2 :: g3 :: g4 :: rest5 =>
                    match hexVal? g1, hexVal? g2, hexVal? g3, hexVal? g4 with
                    | some y1, some y2, some y3, some y4 =>
                      let m := ((y1 * 16 + y2) * 16 + y3) * 16 + y4
                      if 0xdc00 ≤ m && m ≤ 0xdfff then
                        let cp := 0x10000 + (n - 0xd800) * 0x400 + (m - 0xdc00)
                        (jsonParseString rest5).map
                          (fun (s, r) => (String.mk [Char.ofNat cp] ++ s, r))
                      else Option.none
                    | _, _, _, _ => Option.none
                  | _ => Option.none
                else if 0xdc00 ≤ n && n ≤ 0xdfff then Option.none
                else
                  (jsonParseString rest3).map
                    (fun (s, r) => (String.mk [Char.ofNat n] ++ s, r))
              | _, _, _, _ => Option.none
            | _ => Option.none
          else Option.none
    else if c.toNat < 0x20 then Option.none
    else (jsonParseString rest).map (fun (s, r) => (String.mk [c] ++ s, r))

/-- JSON digits (no underscores, unlike Python numeric literals). -/
def jsonDigits (acc : ℕ) : List Char → ℕ × List Char
  | [] => (acc, [])
  | c :: rest =>
    if c.isDigit then jsonDigits (acc * 10 + (c.toNat - 48)) rest
    else (acc, c :: rest)

/-- Leading digit run, requiring at least one digit. -/
def jsonDigits1 : List Char → Option (ℕ × ℕ × List Char)
  | [] => Option.none
  | c :: rest =>
    if c.isDigit then
      let (n, r) := jsonDigits (c.toNat - 48) rest
      some (n, 0, r)
    else Option.none

/-- Count the digits consumed between two lists. -/
def countConsumed (before after : List Char) : ℕ := before.length - after.length

/-- A JSON number after an optional leading minus sign: `0` or a
non-zero-led digit run, an optional fraction, an optional exponent.
Whole numbers parse as Python ints, others as floats (exact rationals). -/
def jsonParseNumberBody (neg : Bool) (l : List Char) : Option (Value × List Char) :=
  let intPart : Option (ℕ × List Char) :=
    match l with
    | '0' :: rest =>
      match rest with
      | c :: _ => if c.isDigit then Option.none else some (0, rest)
      | [] => some (0, [])
    | c :: rest =>
      if c.isDigit && c != '0' then
        let (n, r) := jsonDigits (c.toNat - 48) rest
        some (n, r)
      else Option.none
    | [] => Option.none
  match intPart with
  | Option.none => Option.none
  | some (ip, rest1) =>
    let fracPart : Option (Option (ℕ × ℕ) × List Char) :=
      match rest1 with
      | '.' :: c :: rest2 =>
        if c.isDigit then
          let (fn, r) := jsonDigits (c.toNat - 48) rest2
          some (some (fn, countConsumed (c :: rest2) r), r)
        else Option.none
      | '.' :: [] => Option.none
      | _ => some (Option.none, rest1)
    match fracPart with
    | Option.none => Option.none
    | some (frac, rest3) =>
      let expPart : Option (Option ℤ × List Char) :=
        match rest3 with
        | e :: rest4 =>
          if e == 'e' || e == 'E' then
            match rest4 with
            | '+' :: c :: rest5 =>
              if c.isDigit then
                let (en, r) := jsonDigits (c.toNat - 48) rest5
                some (some (en : ℤ), r)
              else Option.none
            | '-' :: c :: rest5 =>
              if c.isDigit then
                let (en, r) := jsonDigits (c.toNat - 48) rest5
                some (some (-(en : ℤ)), r)
              else Option.none
            | c :: rest5 =>
              if c.isDigit then
                let (en, r) := jsonDigits (c.toNat - 48) rest5
                some (some (en : ℤ), r)
              else Option.none
            | [] => Option.none
          else some (Option.none, rest3)
        | [] => some (Option.none, [])
      match expPart with
      | Option.none => Option.none
      | some (ex, rest6) =>
        match frac, ex with
        | Option.none, Option.none =>
          some (.int (if neg then -(ip : ℤ) else (ip : ℤ)), rest6)
        | _, _ =>
          let mant : ℚ := (ip : ℚ) +
            (match frac with
             | some (fn, fd) => (fn : ℚ) / (10 : ℚ) ^ fd
             | Option.none => 0)
          let scaled : ℚ := mant * (10 : ℚ) ^ (ex.getD 0)
          some (.float (.fin (if neg then -scaled else scaled)), rest6)

mutual
/-- Model of the Python JSON parser on a char list (value grammar, with
the non-standard `NaN`, `Infinity` and `-Infinity` that `json.loads`
accepts by default). Fueled recursion; the caller oversizes the fuel. -/
def jsonParseValue : ℕ → List Char → Option (Value × List Char)
  | 0, _ => Option.none
  | fuel + 1, input =>
    let l := input.dropWhile isJsonWs
    match l with
    | [] => Option.none
    | c :: rest =>
      if c == '"' then
        (jsonParseString rest).map (fun (s, r) => (Value.str s, r))
      else if c == '[' then
        let rest1 := rest.dropWhile isJsonWs
        match rest1 with
        | ']' :: r => some (.list [], r)
        | _ => (jsonParseElems fuel rest1).map (fun (xs, r) => (Value.list xs, r))
      else if c == '\x7b' then
        let rest1 := rest.dropWhile isJsonWs
        match rest1 with
        | '\x7d' :: r => some (.dict [], r)
        | _ =>
          (jsonParseMembers fuel rest1).map (fun (kvs, r) => (Value.dict kvs, r))
      else if prefixMatch "null".data l then some (.none, l.drop 4)
      else if prefixMatch "true".data l then some (.bool true, l.drop 4)
      else if prefixMatch "false".data l then some (.bool false, l.drop 5)
      else if prefixMatch "NaN".data l then some (.float .nan, l.drop 3)
      else if prefixMatch "Infinity".data l then some (.float (.inf false), l.drop 8)
      else if prefixMatch "-Infinity".data l then some (.float (.inf true), l.drop 9)
      else if c == '-' then jsonParseNumberBody true rest
      else if c.isDigit then jsonParseNumberBody false l
      else Option.none
termination_by structural fuel _ => fuel

/-- Array elements after the opening bracket and whitespace. -/
def jsonParseElems : ℕ → List Char → Option (List Value × List Char)
  | 0, _ => Option.none
  | fuel + 1, l =>
    match jsonParseValue fuel l with
    | Option.none => Option.none
    | some (v, r) =>
      let r1 := r.dropWhile isJsonWs
      match r1 with
      | ',' :: r2 =>
        (jsonParseElems fuel r2).map (fun (xs, r3) => (v :: xs, r3))
      | ']' :: r2 => some ([v], r2)
      | _ => Option.none
termination_by structural fuel _ => fuel

/-- Object members after the opening brace and whitespace. -/
def jsonParseMembers : ℕ → List Char → Option (List (String × Value) × List Char)
  | 0, _ => Option.none
  | fuel + 1, l =>
    match l with
    | '"' :: rest =>
      match jsonParseString rest with
      | Option.none => Option.none
      | some (k, r) =>
        let r1 := r.dropWhile isJsonWs
        match r1 with
        | ':' :: r2 =>
          match jsonParseValue fuel r2 with
          | Option.none => Option.none
          | some (v, r3) =>
            let r4 := r3.dropWhile isJsonWs
            match r4 with
            | ',' :: r5 =>
              match r5.dropWhile isJsonWs with
              | '"' :: _ =>
                (jsonParseMembers fuel (r5.dropWhile isJsonWs)).map
                  (fun (kvs, r6) => ((k, v) :: kvs, r6))
              | _ => Option.none
            | '\x7d' :: r5 => some ([(k, v)], r5)
            | _ => Option.none
        | _ => Option.none
    | _ => Option.none
termination_by structural fuel _ => fuel
end

/-- Model of Python `json.loads(s)`: parse one value with surrounding
whitespace; `none` models `JSONDecodeError`. -/
def jsonLoads? (s : String) : Option Value :=
  match jsonParseValue (2 * s.length + 2) s.data with
  | some (v, r) => if (r.dropWhile isJsonWs).isEmpty then some v else Option.none
  | Option.none => Option.none

-- ---------------------------------------------------------------------------
-- Causal reason wire format (manifest._parse_reason / _reason_to_dict)
-- ---------------------------------------------------------------------------

/-- `manifest._parse_reason`: normalize a serde-tagged `CausalReason`
into `(reason_type, reason_detail)`; structured payloads are encoded as
compact JSON text. -/
def parseReason : Value → String × String
  | .dict ((key, value) :: _) =>
    (match value with
     | .str s => (key, s)
     | .list _ => (key, jsonDumps value)
     | .dict _ => (key, jsonDumps value)
     | v => (key, pyStr v))
  | .dict [] => ("Unknown", pyStr (.dict []))
  | .str s => ("Unknown", s)
  | v => ("Unknown", pyStr v)

/-- `manifest._reason_to_dict`: reconstruct the serde JSON shape; for the
structured variants the detail is parsed back from JSON when possible. -/
def reasonToDict (reason_type reason_detail : String) : Value :=
  if reason_type == "CollisionResponse" || reason_type == "StateTransition" then
    match jsonLoads? reason_detail with
    | some j => .dict [(reason_type, j)]
    | Option.none => .dict [(reason_type, .str reason_detail)]
  else .dict [(reason_type, .str reason_detail)]

/-- The first bool/int entry of a dict payload (`for value in
raw.values(): if isinstance(value, int): return value`; bool is an int). -/
def firstIntValue : List (String × Value) → Option ℤ
  | [] => Option.none
  | (_, .int n) :: _ => some n
  | (_, .bool b) :: _ => some (if b then 1 else 0)
  | _ :: rest => firstIntValue rest

/-- `manifest._parse_system_id`: a bare int, a single-keyed mapping with
an int value, or anything `int()` accepts. -/
def parseSystemId (raw : Value) : Except PyErr ℤ :=
  match raw with
  | .int n => .ok n
  | .bool b => .ok (if b then 1 else 0)
  | .dict kvs =>
    (match firstIntValue kvs with
     | some n => .ok n
     | Option.none => pyInt raw)
  | v => pyInt v

/-- `manifest._parse_entity_id`: same logic as `_parse_system_id`. -/
def parseEntityId (raw : Value) : Except PyErr ℤ :=
  match raw with
  | .int n => .ok n
  | .bool b => .ok (if b then 1 else 0)
  | .dict kvs =>
    (match firstIntValue kvs with
     | some n => .ok n
     | Option.none => pyInt raw)
  | v => pyInt v

-- ---------------------------------------------------------------------------
-- Wire format of the manifest records
-- ---------------------------------------------------------------------------

/-- Calling `.get` on a non-dict raises AttributeError. -/
def asDict : Value → Except PyErr (List (String × Value))
  | .dict kvs => .ok kvs
  | _ => .error (.attributeError "get")

/-- Python `data[key]` on a dict: KeyError when absent. -/
def getItem (kvs : List (String × Value)) (key : String) : Except PyErr Value :=
  match lookupV kvs key with
  | some v => .ok v
  | Option.none => .error (.keyError key)

/-- `ComponentChange.to_dict`. -/
def ComponentChange.toDict (c : ComponentChange) : Value :=
  .dict [("entity_id", .int c.entity_id),
         ("component_type_name", .str c.component_type_name),
         ("old_value", c.old_value),
         ("new_value", c.new_value),
         ("changed_by", .int c.changed_by_system),
         ("reason", reasonToDict c.reason_type c.reason_detail),
         ("command_index", .int c.command_index),
         ("tick", .int c.tick)]

/-- `ComponentChange.from_dict`. -/
def ComponentChange.fromDict (data : Value) : Except PyErr ComponentChange := do
  let kvs ← asDict data
  let rt_rd := parseReason (dgetD kvs "reason" (.dict []))
  let entity_id ← parseEntityId (← getItem kvs "entity_id")
  let component_type_name := pyStr (← getItem kvs "component_type_name")
  let old_value := dget kvs "old_value"
  let new_value := dget kvs "new_value"
  let changed_by_system ← parseSystemId (← getItem kvs "changed_by")
  let command_index ← pyInt (← getItem kvs "command_index")
  let tick ← pyInt (← getItem kvs "tick")
  .ok { entity_id := entity_id, component_type_name := component_type_name,
        old_value := old_value, new_value := new_value,
        changed_by_system := changed_by_system,
        reason_type := rt_rd.1, reason_detail := rt_rd.2,
        command_index := command_index, tick := tick }

/-- `GameEvent.to_dict`. -/
def GameEvent.toDict (e : GameEvent) : Value :=
  .dict [("event_type", .str e.event_type),
         ("description", .str e.description),
         ("involved_entities", .list (e.involved_entities.map Value.int)),
         ("caused_by", .int e.caused_by_system),
         ("reason", reasonToDict e.reason_type e.reason_detail),
         ("tick", .int e.tick)]

/-- `GameEvent.from_dict`. -/
def GameEvent.fromDict (data : Value) : Except PyErr GameEvent := do
  let kvs ← asDict data
  let rt_rd := parseReason (dgetD kvs "reason" (.dict []))
  let entities ← match dgetD kvs "involved_entities" (.list []) with
    | .list raw => raw.mapM parseEntityId
    | _ => .ok []
  let event_type := pyStr (← getItem kvs "event_type")
  let description := pyStr (← getItem kvs "description")
  let caused_by_system ← parseSystemId (← getItem kvs "caused_by")
  let tick ← pyInt (← getItem kvs "tick")
  .ok { event_type := event_type, description := description,
        involved_entities := entities, caused_by_system := caused_by_system,
        reason_type := rt_rd.1, reason_detail := rt_rd.2, tick := tick }

/-- `Aggregates.to_dict`. -/
def Aggregates.toDict (a : Aggregates) : Value :=
  .dict [("entity_count_by_tier",
           .dict (a.entity_count_by_tier.map (fun p => (p.1, Value.int p.2)))),
         ("entity_count_by_type",
           .dict (a.entity_count_by_type.map (fun p => (p.1, Value.int p.2)))),
         ("total_entity_count", .int a.total_entity_count),
         ("custom", .dict (a.custom.map (fun p => (p.1, Value.float p.2))))]

/-- `Aggregates.from_dict`. -/
def Aggregates.fromDict (data : Value) : Except PyErr Aggregates := do
  let kvs ← asDict data
  let tier_counts ← match dgetD kvs "entity_count_by_tier" (.dict []) with
    | .dict m => m.mapM (fun kv => do .ok (kv.1, ← pyInt kv.2))
    | _ => .ok []
  let type_counts ← match dgetD kvs "entity_count_by_type" (.dict []) with
    | .dict m => m.mapM (fun kv => do .ok (kv.1, ← pyInt kv.2))
    | _ => .ok []
  let custom ← match dgetD kvs "custom" (.dict []) with
    | .dict m => m.mapM (fun kv => do .ok (kv.1, ← pyFloat kv.2))
    | _ => .ok []
  let total ← pyInt (dgetD kvs "total_entity_count" (.int 0))
  .ok { entity_count_by_tier := tier_counts, entity_count_by_type := type_counts,
        total_entity_count := total, custom := custom }

/-- `TickManifest.to_dict`. -/
def TickManifest.toDict (m : TickManifest) : Value :=
  .dict [("tick", .int m.tick),
         ("sim_time", .float m.sim_time),
         ("entity_spawns", .list (m.entity_spawns.map Value.int)),
         ("entity_despawns", .list (m.entity_despawns.map Value.int)),
         ("component_changes", .list (m.component_changes.map ComponentChange.toDict)),
         ("events", .list (m.events.map GameEvent.toDict)),
         ("aggregates", m.aggregates.toDict),
         ("systems_executed", .list (m.systems_executed.map Value.str)),
         ("commands_processed", .int m.commands_processed),
         ("commands_succeeded", .int m.commands_succeeded)]

/-- `TickManifest.from_dict`. -/
def TickManifest.fromDict (data : Value) : Except PyErr TickManifest := do
  let kvs ← asDict data
  let spawns ← match dgetD kvs "entity_spawns" (.list []) with
    | .list raw => raw.mapM parseEntityId
    | _ => .ok []
  let despawns ← match dgetD kvs "entity_despawns" (.list []) with
    | .list raw => raw.mapM parseEntityId
    | _ => .ok []
  let changes ← match dgetD kvs "component_changes" (.list []) with
    | .list raw => raw.mapM ComponentChange.fromDict
    | _ => .ok []
  let events ← match dgetD kvs "events" (.list []) with
    | .list raw => raw.mapM GameEvent.fromDict
    | _ => .ok []
  let aggregates ← match dgetD kvs "aggregates" (.dict []) with
    | .dict m => Aggregates.fromDict (.dict m)
    | _ =>
      .ok { entity_count_by_tier := [], entity_count_by_type := [],
            total_entity_count := 0, custom := [] }
  let systems := match dgetD kvs "systems_executed" (.list []) with
    | .list raw => raw.map pyStr
    | _ => []
  let tick ← pyInt (dgetD kvs "tick" (.int 0))
  let sim_time ← pyFloat (dgetD kvs "sim_time" (.float (.fin 0)))
  let commands_processed ← pyInt (dgetD kvs "commands_processed" (.int 0))
  let commands_succeeded ← pyInt (dgetD kvs "commands_succeeded" (.int 0))
  .ok { tick := tick, sim_time := sim_time, entity_spawns := spawns,
        entity_despawns := despawns, component_changes := changes,
        events := events, aggregates := aggregates,
        systems_executed := systems, commands_processed := commands_processed,
        commands_succeeded := commands_succeeded }

-- ---------------------------------------------------------------------------
-- Wire format of the intent DSL (intents.Trigger / Expected / IntentSpec)
-- ---------------------------------------------------------------------------

mutual
/-- `Trigger.to_dict`: `(type, params, children)` with the children list
always written (empty when there are none). -/
def Trigger.toDict : Trigger → Value
  | .mk ty ps cs =>
    .dict [("type", .str ty.value), ("params", .dict ps),
           ("children", .list (Trigger.toDictList cs))]
termination_by structural t => t

/-- Elementwise `to_dict` over children. -/
def Trigger.toDictList : List Trigger → List Value
  | [] => []
  | t :: ts => t.toDict :: Trigger.toDictList ts
termination_by structural ts => ts
end

mutual
/-- `Trigger.from_dict`: an unknown `type` string raises ValueError;
a missing or non-dict `params` yields `{}`; a missing or non-list
`children` yields `[]`; children parse recursively. -/
def Trigger.fromDict (data : Value) : Except PyErr Trigger :=
  match data with
  | .dict kvs =>
    (match TriggerType.ofString? (pyStr (dgetD kvs "type" (.str ""))) with
     | Option.none =>
       .error (.valueError ("'" ++ pyStr (dgetD kvs "type" (.str "")) ++
         "' is not a valid TriggerType"))
     | some ty =>
       let params := match dgetD kvs "params" (.dict []) with
         | .dict m => m
         | _ => []
       match hcv : lookupV kvs "children" with
       | some (.list xs) =>
         (Trigger.fromDictList xs).map (fun cs => .mk ty params cs)
       | _ => .ok (.mk ty params []))
  | _ => .error (.attributeError "get")
termination_by sizeOf data
decreasing_by
  simp_wf
  have hlt : ∀ (l : List (String × Value)) (key : String) (v : Value),
      lookupV l key = some v → sizeOf v < sizeOf l := by
    intro l key v h
    induction l with
    | nil => simp [lookupV] at h
    | cons p rest ih =>
      rw [lookupV] at h
      by_cases hk : p.1 == key
      · simp [hk] at h
        cases p with
        | mk k w =>
          simp at h
          subst h
          simp
          omega
      · simp [hk] at h
        have := ih h
        cases p with
        | mk k w => simp; omega
  have := hlt kvs "children" (.list xs) hcv
  simp at this ⊢
  omega

/-- Elementwise `from_dict` over a raw children list. -/
def Trigger.fromDictList : List Value → Except PyErr (List Trigger)
  | [] => .ok []
  | x :: rest => do
    let t ← Trigger.fromDict x
    let ts ← Trigger.fromDictList rest
    .ok (t :: ts)
termination_by xs => sizeOf xs
end

mutual
/-- `Expected.to_dict`. -/
def Expected.toDict : Expected → Value
  | .mk ty ps cs =>
    .dict [("type", .str ty.value), ("params", .dict ps),
           ("children", .list (Expected.toDictList cs))]
termination_by structural e => e

/-- Elementwise `to_dict` over children. -/
def Expected.toDictList : List Expected → List Value
  | [] => []
  | e :: es => e.toDict :: Expected.toDictList es
termination_by structural es => es
end

mutual
/-- `Expected.from_dict`: an unknown `type` string raises ValueError;
children parse recursively (same shape as `Trigger.from_dict`). -/
def Expected.fromDict (data : Value) : Except PyErr Expected :=
  match data with
  | .dict kvs =>
    (match ExpectedType.ofString? (pyStr (dgetD kvs "type" (.str ""))) with
     | Option.none =>
       .error (.valueError ("'" ++ pyStr (dgetD kvs "type" (.str "")) ++
         "' is not a valid ExpectedType"))
     | some ty =>
       let params := match dgetD kvs "params" (.dict []) with
         | .dict m => m
         | _ => []
       match hcv : lookupV kvs "children" with
       | some (.list xs) =>
         (Expected.fromDictList xs).map (fun cs => .mk ty params cs)
       | _ => .ok (.mk ty params []))
  | _ => .error (.attributeError "get")
termination_by sizeOf data
decreasing_by
  simp_wf
  have hlt : ∀ (l : List (String × Value)) (key : String) (v : Value),
      lookupV l key = some v → sizeOf v < sizeOf l := by
    intro l key v h
    induction l with
    | nil => simp [lookupV] at h
    | cons p rest ih =>
      rw [lookupV] at h
      by_cases hk : p.1 == key
      · simp [hk] at h
        cases p with
        | mk k w =>
          simp at h
          subst h
          simp
          omega
      · simp [hk] at h
        have := ih h
        cases p with
        | mk k w => simp; omega
  have := hlt kvs "children" (.list xs) hcv
  simp at this ⊢
  omega

/-- Elementwise `from_dict` over a raw children list. -/
def Expected.fromDictList : List Value → Except PyErr (List Expected)
  | [] => .ok []
  | x :: rest => do
    let e ← Expected.fromDict x
    let es ← Expected.fromDictList rest
    .ok (e :: es)
termination_by xs => sizeOf xs
end

/-- `None` for `Option.none`, the string otherwise (how `IntentSpec.to_dict`
writes optional string fields). -/
def optStr : Option String → Value
  | Option.none => .none
  | some s => .str s

/-- `IntentSpec.to_dict`: the shared header plus the kind-specific
fields only. -/
def IntentSpec.toDict (s : IntentSpec) : Value :=
  let base : List (String × Value) :=
    [("name", .str s.name), ("kind", .str s.kind.value),
     ("description", .str s.description)]
  match s.kind with
  | .entity =>
    .dict (base ++
      [("entity_type", optStr s.entity_type),
       ("entity_role", optStr s.entity_role),
       ("must_exist", .bool s.must_exist),
       ("must_be_visible", .bool s.must_be_visible),
       ("required_components", .list (s.required_components.map Value.str))])
  | .behavior =>
    .dict (base ++
      [("trigger", match s.trigger with
                   | some t => t.toDict
                   | Option.none => .none),
       ("expected", match s.expected with
                    | some e => e.toDict
                    | Option.none => .none),
       ("timeout_ticks", .int s.timeout_ticks)])
  | .metric =>
    .dict (base ++
      [("metric_entity", optStr s.metric_entity),
       ("metric_component", optStr s.metric_component),
       ("metric_field", optStr s.metric_field),
       ("metric_range", match s.metric_range with
                        | some (a, b) => .list [.float a, .float b]
                        | Option.none => .none)])
  | .invariant =>
    .dict (base ++ [("condition", optStr s.condition)])

/-- The `str(raw) if raw is not None else None` idiom of
`IntentSpec.from_dict`. -/
def optStrOfValue : Value → Option String
  | .none => Option.none
  | v => some (pyStr v)

/-- `IntentSpec.from_dict`: reads the header (KeyError when absent,
ValueError on an unknown kind), then only the kind's own fields; the
rest keep their dataclass defaults. -/
def IntentSpec.fromDict (data : Value) : Except PyErr IntentSpec := do
  let kvs ← asDict data
  let kind ← match IntentKind.ofString? (pyStr (← getItem kvs "kind")) with
    | some k => .ok k
    | Option.none =>
      .error (.valueError ("'" ++ pyStr (← getItem kvs "kind") ++
        "' is not a valid IntentKind"))
  let name := pyStr (← getItem kvs "name")
  let description := pyStr (← getItem kvs "description")
  let base : IntentSpec := { name := name, kind := kind, description := description }
  match kind with
  | .entity =>
    let entity_type := optStrOfValue (dget kvs "entity_type")
    let entity_role := optStrOfValue (dget kvs "entity_role")
    let must_exist := (dgetD kvs "must_exist" (.bool true)).truthy
    let must_be_visible := (dgetD kvs "must_be_visible" (.bool true)).truthy
    let required_components := match dgetD kvs "required_components" (.list []) with
      | .list raw => raw.map pyStr
      | _ => []
    .ok { base with
          entity_type := entity_type, entity_role := entity_role
          must_exist := must_exist, must_be_visible := must_be_visible
          required_components := required_components }
  | .behavior => do
    let trigger ← match dget kvs "trigger" with
      | .dict m => (Trigger.fromDict (.dict m)).map some
      | _ => .ok Option.none
    let expected ← match dget kvs "expected" with
      | .dict m => (Expected.fromDict (.dict m)).map some
      | _ => .ok Option.none
    let timeout_ticks ← pyInt (dgetD kvs "timeout_ticks" (.int 600))
    .ok { base with
          trigger := trigger, expected := expected
          timeout_ticks := timeout_ticks }
  | .metric => do
    let metric_entity := optStrOfValue (dget kvs "metric_entity")
    let metric_component := optStrOfValue (dget kvs "metric_component")
    let metric_field := optStrOfValue (dget kvs "metric_field")
    let metric_range ← match dget kvs "metric_range" with
      | .list [a, b] => do
        let x ← pyFloat a
        let y ← pyFloat b
        .ok (some (x, y))
      | _ => .ok Option.none
    .ok { base with
          metric_entity := metric_entity
          metric_component := metric_component, metric_field := metric_field
          metric_range := metric_range }
  | .invariant =>
    .ok { base with condition := optStrOfValue (dget kvs "condition") }

/-- `VerificationSuite.to_dict`. -/
def VerificationSuite.toDict (s : VerificationSuite) : Value :=
  .dict [("name", .str s.name), ("description", .str s.description),
         ("intents", .list (s.intents.map IntentSpec.toDict))]

/-- `VerificationSuite.from_dict`. -/
def VerificationSuite.fromDict (data : Value) : Except PyErr VerificationSuite := do
  let kvs ← asDict data
  let intents ← match dgetD kvs "intents" (.list []) with
    | .list raw => raw.mapM IntentSpec.fromDict
    | _ => .ok []
  let name := pyStr (← getItem kvs "name")
  let description := pyStr (← getItem kvs "description")
  .ok { name := name, description := description, intents := intents }

-- ---------------------------------------------------------------------------
-- Well-formedness of wire values (what "well-formed" means for round-trips)
-- ---------------------------------------------------------------------------

/-- A stored `(reason_type, reason_detail)` pair is canonical when, for
the structured variants, re-parsing the detail as JSON either fails or
yields a value whose compact dump (or `str()`, for scalars) is the detail
itself. Every pair `_parse_reason` produces from serde wire data has this
shape; it is exactly what `_reason_to_dict` needs to invert losslessly. -/
def reasonCanonical (reason_type reason_detail : String) : Bool :=
  if reason_type == "CollisionResponse" || reason_type == "StateTransition" then
    match jsonLoads? reason_detail with
    | Option.none => true
    | some (.list xs) => jsonDumps (.list xs) == reason_detail
    | some (.dict kvs) => jsonDumps (.dict kvs) == reason_detail
    | some (.str _) => false
    | some v => pyStr v == reason_detail
  else true

/-- A well-formed `ComponentChange` for wire round-trips. -/
def ComponentChange.wireWF (c : ComponentChange) : Bool :=
  reasonCanonical c.reason_type c.reason_detail

/-- A well-formed `GameEvent` for wire round-trips. -/
def GameEvent.wireWF (e : GameEvent) : Bool :=
  reasonCanonical e.reason_type e.reason_detail

/-- A well-formed `TickManifest` for wire round-trips: every stored
causal reason is canonical. -/
def TickManifest.wireWF (m : TickManifest) : Bool :=
  m.component_changes.all ComponentChange.wireWF && m.events.all GameEvent.wireWF

/-- A well-formed `IntentSpec` for wire round-trips: the fields of the
other kinds sit at their dataclass defaults (`to_dict` only serializes
the intent's own kind's fields, so anything else is dropped). -/
def IntentSpec.wireWF (s : IntentSpec) : Prop :=
  match s.kind with
  | .entity =>
    s.trigger = Option.none ∧ s.expected = Option.none ∧
    s.timeout_ticks = 600 ∧ s.metric_entity = Option.none ∧
    s.metric_component = Option.none ∧ s.metric_field = Option.none ∧
    s.metric_range = Option.none ∧ s.condition = Option.none
  | .behavior =>
    s.entity_type = Option.none ∧ s.entity_role = Option.none ∧
    s.must_exist = true ∧ s.must_be_visible = true ∧
    s.required_components = [] ∧ s.metric_entity = Option.none ∧
    s.metric_component = Option.none ∧ s.metric_field = Option.none ∧
    s.metric_range = Option.none ∧ s.condition = Option.none
  | .metric =>
    s.entity_type = Option.none ∧ s.entity_role = Option.none ∧
    s.must_exist = true ∧ s.must_be_visible = true ∧
    s.required_components = [] ∧ s.trigger = Option.none ∧
    s.expected = Option.none ∧ s.timeout_ticks = 600 ∧
    s.condition = Option.none
  | .invariant =>
    s.entity_type = Option.none ∧ s.entity_role = Option.none ∧
    s.must_exist = true ∧ s.must_be_visible = true ∧
    s.required_components = [] ∧ s.trigger = Option.none ∧
    s.expected = Option.none ∧ s.timeout_ticks = 600 ∧
    s.metric_entity = Option.none ∧ s.metric_component = Option.none ∧
    s.metric_field = Option.none ∧ s.metric_range = Option.none

/-- A well-formed `VerificationSuite` for wire round-trips. -/
def VerificationSuite.wireWF (s : VerificationSuite) : Prop :=
  ∀ i ∈ s.intents, i.wireWF

-- ===========================================================================
-- Theorems
-- ===========================================================================

/-- C5 (counterexample): the comparator does not return false for `!=`
when an operand is NaN — Python `nan != 1.0` is true, and `_compare`
returns it unchanged. This refutes the claim that every one of the six
operators evaluates to false on NaN. -/
theorem compare_nan_counterexample :
    compareOp PyNum.nan "!=" (PyNum.fin 1) = true := rfl

/-- C5 (amended): with NaN on either side, the five operators `==`, `<`,
`<=`, `>`, `>=` evaluate to false, and `!=` evaluates to true. -/
theorem compare_nan_semantics (x y : PyNum) (op : String)
    (h : x = PyNum.nan ∨ y = PyNum.nan) :
    (op = "==" ∨ op = "<" ∨ op = "<=" ∨ op = ">" ∨ op = ">=" →
      compareOp x op y = false) ∧
    (op = "!=" → compareOp x op y = true) := by
  constructor
  · intro hop
    rcases hop with h1 | h1 | h1 | h1 | h1 <;> subst h1 <;>
      rcases h with h2 | h2 <;> subst h2 <;>
      first
        | rfl
        | (cases x <;> rfl)
        | (cases y <;> rfl)
  · intro h1
    subst h1
    rcases h with h2 | h2 <;> subst h2 <;>
      first
        | rfl
        | (cases x <;> rfl)
        | (cases y <;> rfl)

/-- C5 (witness): the amended theorem applied at concrete inputs. -/
theorem compare_nan_semantics_witness :
    compareOp PyNum.nan "<" (PyNum.fin 3) = false ∧
    compareOp (PyNum.fin 3) "!=" PyNum.nan = true :=
  ⟨(compare_nan_semantics PyNum.nan (PyNum.fin 3) "<" (Or.inl rfl)).1
     (Or.inr (Or.inl rfl)),
   (compare_nan_semantics (PyNum.fin 3) PyNum.nan "!=" (Or.inr rfl)).2 rfl⟩

/-- C4: the entity-name matcher's four-branch contract. (1) A name that
parses as an integer matches exactly the equal entity id; otherwise
(2) a case-insensitive substring hit on `reason_detail` returns true;
otherwise (3) a colon in `reason_detail` returns false; otherwise
(4) the matcher is permissive and returns true. -/
theorem matches_entity_four_branches (change : ComponentChange) (name : String) :
    (∀ k : ℤ, pyIntOfString? name = some k →
      matchesEntity change name = (change.entity_id == k)) ∧
    (pyIntOfString? name = Option.none →
      strContains (strLower change.reason_detail) (strLower name) = true →
      matchesEntity change name = true) ∧
    (pyIntOfString? name = Option.none →
      strContains (strLower change.reason_detail) (strLower name) = false →
      strContains (strLower change.reason_detail) ":" = true →
      matchesEntity change name = false) ∧
    (pyIntOfString? name = Option.none →
      strContains (strLower change.reason_detail) (strLower name) = false →
      strContains (strLower change.reason_detail) ":" = false →
      matchesEntity change name = true) := by
  refine ⟨?_, ?_, ?_, ?_⟩
  · intro k hk
    simp [matchesEntity, hk]
  · intro hnone hsub
    simp [matchesEntity, hnone, hsub]
  · intro hnone hsub hcolon
    simp [matchesEntity, hnone, hsub, hcolon]
  · intro hnone hsub hcolon
    simp [matchesEntity, hnone, hsub, hcolon]

/-- C4 (witness): one concrete input per branch. -/
theorem matches_entity_four_branches_witness :
    matchesEntity
      { entity_id := 7, component_type_name := "position",
        old_value := .none, new_value := .none, changed_by_system := 0,
        reason_type := "GameRule", reason_detail := "ball:brick",
        command_index := 0, tick := 0 } "7" = ((7 : ℤ) == 7) ∧
    matchesEntity
      { entity_id := 7, component_type_name := "position",
        old_value := .none, new_value := .none, changed_by_system := 0,
        reason_type := "GameRule", reason_detail := "Ball hit wall",
        command_index := 0, tick := 0 } "ball" = true ∧
    matchesEntity
      { entity_id := 7, component_type_name := "position",
        old_value := .none, new_value := .none, changed_by_system := 0,
        reason_type := "GameRule", reason_detail := "ball:brick",
        command_index := 0, tick := 0 } "paddle" = false ∧
    matchesEntity
      { entity_id := 7, component_type_name := "position",
        old_value := .none, new_value := .none, changed_by_system := 0,
        reason_type := "GameRule", reason_detail := "moved right",
        command_index := 0, tick := 0 } "paddle" = true :=
  ⟨(matches_entity_four_branches _ "7").1 7 (by decide),
   (matches_entity_four_branches _ "ball").2.1 (by decide) (by decide),
   (matches_entity_four_branches _ "paddle").2.2.1 (by decide) (by decide)
     (by decide),
   (matches_entity_four_branches _ "paddle").2.2.2 (by decide) (by decide)
     (by decide)⟩

-- Helper lemmas about the value model.

/-- `isNone` detects exactly `Value.none`. -/
theorem Value.isNone_iff {v : Value} : v.isNone = true ↔ v = Value.none := by
  cases v <;> simp [Value.isNone]

/-- Python `None == v` holds only for `None`. -/
theorem pyEq_none_left {v : Value} (h : pyEq Value.none v = true) :
    v = Value.none := by
  cases v <;> first | rfl | exact Bool.noConfusion h

/-- The COMPONENT_CHANGED scan returns false when every change matching
the component (and the entity filter) has equal old and new field
values. -/
theorem componentChangedLoop_delta (c f e : String)
    (changes : List ComponentChange)
    (h : ∀ ch ∈ changes, ch.component_type_name = c →
      (e = "" ∨ matchesEntity ch e = true) →
      pyEq (extractFieldValue ch.old_value f) (extractFieldValue ch.new_value f)
        = true) :
    componentChangedLoop c (.str f) Value.none (.str e) changes = false := by
  induction changes with
  | nil => rfl
  | cons ch rest ih =>
    have hrest : componentChangedLoop c (.str f) Value.none (.str e) rest = false :=
      ih (fun x hx => h x (List.mem_cons_of_mem _ hx))
    rw [componentChangedLoop]
    by_cases hcomp : ch.component_type_name = c
    case neg =>
      simp [bne, hcomp, hrest]
    case pos =>
      have hbne : (ch.component_type_name != c) = false := by simp [bne, hcomp]
      rw [hbne]
      simp only [Bool.false_eq_true, if_false]
      by_cases hent : (Value.truthy (.str e) &&
          !(matchesEntity ch (pyStr (.str e)))) = true
      case pos =>
        rw [hent]
        simpa using hrest
      case neg =>
        rw [Bool.not_eq_true] at hent
        rw [hent]
        have hdisj : e = "" ∨ matchesEntity ch e = true := by
          rcases Bool.and_eq_false_iff.mp hent with hT | hM
          · left
            have : e.isEmpty = true := by
              simpa [Value.truthy] using hT
            exact (String.isEmpty_iff e).mp this
          · right
            simpa [pyStr] using hM
        have hkey := h ch (List.mem_cons_self _ _) hcomp hdisj
        simp only [Bool.false_eq_true, if_false]
        have hfn : (!(Value.isNone (.str f))) = true := rfl
        rw [hfn]
        simp only [if_true]
        by_cases hnv : (extractFieldValue ch.new_value (pyStr (.str f))).isNone = true
        case pos =>
          rw [hnv]
          simpa using hrest
        case neg =>
          rw [Bool.not_eq_true] at hnv
          rw [hnv]
          simp only [Bool.false_eq_true, if_false]
          have hps : pyStr (.str f) = f := rfl
          rw [hps] at hnv ⊢
          have hguard : (!(extractFieldValue ch.old_value f).isNone &&
              pyEq (extractFieldValue ch.old_value f)
                (extractFieldValue ch.new_value f)) = true := by
            have holdn : (extractFieldValue ch.old_value f).isNone = false := by
              by_contra hx
              rw [Bool.not_eq_false] at hx
              have hov := Value.isNone_iff.mp hx
              rw [hov] at hkey
              have := pyEq_none_left hkey
              rw [this] at hnv
              exact Bool.noConfusion hnv
            rw [holdn, hkey]
            rfl
          rw [hguard]
          simpa using hrest

/-- C6: the delta check on COMPONENT_CHANGED. When every change of the
manifest that matches component `c` and entity `e` (per the name
matcher) has its old field value equal to its new field value for `f`,
the single-tick expected evaluator rejects `ComponentChanged(e, c, f)`;
a set to an identical value never satisfies the expectation. -/
theorem component_changed_delta_check (e c f : String) (manifest : TickManifest)
    (h : ∀ ch ∈ manifest.component_changes, ch.component_type_name = c →
      (e = "" ∨ matchesEntity ch e = true) →
      pyEq (extractFieldValue ch.old_value f) (extractFieldValue ch.new_value f)
        = true) :
    checkExpected (component_changed e c f) manifest = .ok false := by
  have hloop := componentChangedLoop_delta c f e manifest.component_changes h
  calc checkExpected (component_changed e c f) manifest
      = .ok (componentChangedLoop c (.str f) Value.none (.str e)
          manifest.component_changes) := rfl
    _ = .ok false := by rw [hloop]

/-- C6 (witness): a bounce-shaped manifest whose only velocity change
sets `dy` to its old value does not satisfy `ComponentChanged`. -/
theorem component_changed_delta_check_witness :
    checkExpected (component_changed "ball" "velocity" "dy")
      { tick := 0, sim_time := .fin 0, entity_spawns := [],
        entity_despawns := [],
        component_changes :=
          [{ entity_id := 1, component_type_name := "velocity",
             old_value := .dict [("dy", .float (.fin 5))],
             new_value := .dict [("dy", .float (.fin 5))],
             changed_by_system := 0, reason_type := "GameRule",
             reason_detail := "ball bounce", command_index := 0, tick := 0 }],
        events := [],
        aggregates := { entity_count_by_tier := [], entity_count_by_type := [],
                        total_entity_count := 0, custom := [] },
        systems_executed := [], commands_processed := 0,
        commands_succeeded := 0 } = .ok false := by
  apply component_changed_delta_check
  intro ch hch hcomp hmatch
  simp only [List.mem_singleton] at hch
  subst hch
  rfl

-- C10: metric_entity noninterference.

/-- The inner metric scan ignores the entity name except in message
text: the `(passed, trigger_tick, evidence)` projections coincide. -/
theorem metricScanChanges_entity_indep (n e1 e2 c f : String) (a b : PyNum)
    (t : ℤ) (cs : List ComponentChange) :
    (metricScanChanges n e1 c f a b t cs).map
        (fun r => (r.passed, r.trigger_tick, r.evidence)) =
    (metricScanChanges n e2 c f a b t cs).map
        (fun r => (r.passed, r.trigger_tick, r.evidence)) := by
  induction cs with
  | nil => rfl
  | cons ch rest ih =>
    rw [metricScanChanges, metricScanChanges]
    by_cases h1 : (ch.component_type_name != c) = true
    · rw [h1]
      simp only [if_true]
      exact ih
    · rw [Bool.not_eq_true] at h1
      rw [h1]
      simp only [Bool.false_eq_true, if_false]
      by_cases h2 : (extractFieldValue ch.new_value f).isNone = true
      · rw [h2]
        simp only [if_true]
        exact ih
      · rw [Bool.not_eq_true] at h2
        rw [h2]
        simp only [Bool.false_eq_true, if_false]
        cases hx : (extractFieldValue ch.new_value f).asNum? with
        | none => exact ih
        | some x =>
          by_cases h3 : (x.ltb a || b.ltb x) = true
          · simp [h3]
          · simp only [Bool.not_eq_true] at h3
            simpa only [h3, Bool.false_eq_true, if_false] using ih

/-- The manifest-level metric scan ignores the entity name in the three
projected fields. -/
theorem metricScan_entity_indep (n e1 e2 c f : String) (a b : PyNum)
    (ms : List TickManifest) :
    (metricScan n e1 c f a b ms).passed = (metricScan n e2 c f a b ms).passed ∧
    (metricScan n e1 c f a b ms).trigger_tick
      = (metricScan n e2 c f a b ms).trigger_tick ∧
    (metricScan n e1 c f a b ms).evidence
      = (metricScan n e2 c f a b ms).evidence := by
  induction ms with
  | nil => exact ⟨rfl, rfl, rfl⟩
  | cons m rest ih =>
    rw [metricScan, metricScan]
    have hmap := metricScanChanges_entity_indep n e1 e2 c f a b m.tick
      m.component_changes
    cases hx : metricScanChanges n e1 c f a b m.tick m.component_changes with
    | none =>
      cases hy : metricScanChanges n e2 c f a b m.tick m.component_changes with
      | none => exact ih
      | some r2 =>
        rw [hx, hy] at hmap
        simp at hmap
    | some r1 =>
      cases hy : metricScanChanges n e2 c f a b m.tick m.component_changes with
      | none =>
        rw [hx, hy] at hmap
        simp at hmap
      | some r2 =>
        rw [hx, hy] at hmap
        simp only [Option.map_some', Option.some.injEq, Prod.mk.injEq] at hmap
        exact ⟨hmap.1, hmap.2.1, hmap.2.2⟩

/-- C10: metric_entity noninterference. Two metric intents that differ
only in their `metric_entity` field produce the same `passed`, the same
`trigger_tick` and the same `evidence` on every manifest sequence —
the entity name never filters which component changes are inspected and
only appears in the failure message text. -/
theorem metric_entity_noninterference (i1 i2 : IntentSpec)
    (manifests : List TickManifest)
    (hname : i1.name = i2.name)
    (hrange : i1.metric_range = i2.metric_range)
    (hcomp : i1.metric_component = i2.metric_component)
    (hfield : i1.metric_field = i2.metric_field) :
    (verifyMetric i1 manifests).passed = (verifyMetric i2 manifests).passed ∧
    (verifyMetric i1 manifests).trigger_tick
      = (verifyMetric i2 manifests).trigger_tick ∧
    (verifyMetric i1 manifests).evidence
      = (verifyMetric i2 manifests).evidence := by
  rw [verifyMetric, verifyMetric, hrange, hname, hcomp, hfield]
  cases i2.metric_range with
  | none => exact ⟨rfl, rfl, rfl⟩
  | some p =>
    exact metricScan_entity_indep i2.name (i1.metric_entity.getD "")
      (i2.metric_entity.getD "") (i2.metric_component.getD "")
      (i2.metric_field.getD "") p.1 p.2 manifests

/-- C10 (witness): two concrete metric intents differing only in
`metric_entity`, on a manifest with an out-of-range velocity value. -/
theorem metric_entity_noninterference_witness :
    (verifyMetric
      { name := "speed", kind := .metric, description := "",
        metric_entity := some "ball", metric_component := some "velocity",
        metric_field := some "dx", metric_range := some (.fin (-10), .fin 10) }
      [{ tick := 4, sim_time := .fin 0, entity_spawns := [],
         entity_despawns := [],
         component_changes :=
           [{ entity_id := 1, component_type_name := "velocity",
              old_value := .dict [("dx", .float (.fin 5))],
              new_value := .dict [("dx", .float (.fin 15))],
              changed_by_system := 0, reason_type := "GameRule",
              reason_detail := "", command_index := 0, tick := 4 }],
         events := [],
         aggregates := { entity_count_by_tier := [], entity_count_by_type := [],
                         total_entity_count := 0, custom := [] },
         systems_executed := [], commands_processed := 0,
         commands_succeeded := 0 }]).passed =
    (verifyMetric
      { name := "speed", kind := .metric, description := "",
        metric_entity := some "paddle", metric_component := some "velocity",
        metric_field := some "dx", metric_range := some (.fin (-10), .fin 10) }
      [{ tick := 4, sim_time := .fin 0, entity_spawns := [],
         entity_despawns := [],
         component_changes :=
           [{ entity_id := 1, component_type_name := "velocity",
              old_value := .dict [("dx", .float (.fin 5))],
              new_value := .dict [("dx", .float (.fin 15))],
              changed_by_system := 0, reason_type := "GameRule",
              reason_detail := "", command_index := 0, tick := 4 }],
         events := [],
         aggregates := { entity_count_by_tier := [], entity_count_by_type := [],
                         total_entity_count := 0, custom := [] },
         systems_executed := [], commands_processed := 0,
         commands_succeeded := 0 }]).passed :=
  (metric_entity_noninterference _ _ _ rfl rfl rfl rfl).1

-- C8: the no-tunneling check.

/-- C8 (counterexample): the claim's "exactly when the jump exceeds
`2*|v|*dt`" is false — with a last known velocity of zero, a dynamic
entity jumping by 100 exceeds the bound (`100 > 2*0*(1/60)`) yet the
check appends nothing, because the code additionally requires
`max_displacement > 0`. -/
theorem no_tunneling_counterexample :
    checkNoTunnelingD
      [(1, { entity_id := 1, body_type := "dynamic", restitution := .fin 1,
             collider_shape := "circle" })]
      [{ tick := 0, sim_time := .fin 0, entity_spawns := [],
         entity_despawns := [],
         component_changes :=
           [{ entity_id := 1, component_type_name := "velocity",
              old_value := .none,
              new_value := .dict [("dx", .float (.fin 0)), ("dy", .float (.fin 0))],
              changed_by_system := 0, reason_type := "GameRule",
              reason_detail := "", command_index := 0, tick := 0 },
            { entity_id := 1, component_type_name := "position",
              old_value := .dict [("x", .float (.fin 0)), ("y", .float (.fin 0))],
              new_value := .dict [("x", .float (.fin 100)), ("y", .float (.fin 0))],
              changed_by_system := 0, reason_type := "GameRule",
              reason_detail := "", command_index := 1, tick := 0 }],
         events := [],
         aggregates := { entity_count_by_tier := [], entity_count_by_type := [],
                         total_entity_count := 0, custom := [] },
         systems_executed := [], commands_processed := 0,
         commands_succeeded := 0 }] = [] ∧
    (2 * |(0 : ℚ)| * (1 / 60) < 100) :=
  ⟨by with_unfolding_all rfl, by norm_num⟩

/-- C8 (amended): for a position change on a dynamic entity with finite
axis values and a finite last known axis velocity `v`, the check appends
a failure for that axis exactly when `2*|v|*dt` is positive and the
position jump exceeds it (so a zero last-known velocity never fails);
and the claim's concrete instance — a jump of 100 with last known
velocity 1.0 at `dt = 1/60` — produces exactly one tunneling failure. -/
theorem no_tunneling_threshold :
    (∀ (dq : ℚ) (vel : List (String × PyNum)) (old_pos new_pos : List (String × Value))
       (eid tick : ℤ) (axis vel_axis : String) (oq nq vq : ℚ),
      (dget old_pos axis).asNum? = some (.fin oq) →
      (dget new_pos axis).asNum? = some (.fin nq) →
      velAxisGet vel vel_axis = .fin vq →
      (tunnelAxis (.fin dq) vel old_pos new_pos eid tick axis vel_axis ≠ [] ↔
        (0 < 2 * |vq| * dq ∧ 2 * |vq| * dq < |nq - oq|))) ∧
    (checkNoTunnelingD
      [(1, { entity_id := 1, body_type := "dynamic", restitution := .fin 1,
             collider_shape := "circle" })]
      [{ tick := 0, sim_time := .fin 0, entity_spawns := [],
         entity_despawns := [],
         component_changes :=
           [{ entity_id := 1, component_type_name := "velocity",
              old_value := .none,
              new_value := .dict [("dx", .float (.fin 1)), ("dy", .float (.fin 0))],
              changed_by_system := 0, reason_type := "GameRule",
              reason_detail := "", command_index := 0, tick := 0 },
            { entity_id := 1, component_type_name := "position",
              old_value := .dict [("x", .float (.fin 0)), ("y", .float (.fin 0))],
              new_value := .dict [("x", .float (.fin 100)), ("y", .float (.fin 0))],
              changed_by_system := 0, reason_type := "GameRule",
              reason_detail := "", command_index := 1, tick := 0 }],
         events := [],
         aggregates := { entity_count_by_tier := [], entity_count_by_type := [],
                         total_entity_count := 0, custom := [] },
         systems_executed := [], commands_processed := 0,
         commands_succeeded := 0 }]).map
        (fun r => (r.intent_name, r.passed,
          strContains r.suggestion "tunneling")) =
      [("physics_sanity:no_tunneling(entity_1)", false, true)] := by
  constructor
  · intro dq vel old_pos new_pos eid tick axis vel_axis oq nq vq h1 h2 h3
    rw [tunnelAxis, h1, h2, h3]
    simp only [PyNum.pabs, PyNum.mul, PyNum.ltb, PyNum.sub]
    by_cases hc : (decide ((0 : ℚ) < |vq| * dq * 2) &&
        decide (|vq| * dq * 2 < |nq - oq|)) = true
    · rw [hc]
      simp only [Bool.and_eq_true, decide_eq_true_eq] at hc
      simp only [if_true]
      constructor
      · intro _
        constructor
        · linarith [hc.1]
        · linarith [hc.2]
      · intro _
        exact List.cons_ne_nil _ _
    · rw [Bool.not_eq_true] at hc
      rw [hc]
      simp only [Bool.false_eq_true, if_false, ne_eq, not_true_eq_false]
      constructor
      · intro hx
        exact hx.elim
      · intro ⟨ha, hb⟩
        exfalso
        rcases Bool.and_eq_false_iff.mp hc with hT | hM
        · rw [decide_eq_false_iff_not] at hT
          exact hT (by linarith)
        · rw [decide_eq_false_iff_not] at hM
          exact hM (by linarith)
  · with_unfolding_all rfl

/-- C8 (witness): the amended threshold rule applied at concrete inputs
(velocity 1, dt 1/60, a jump of 100 on the x axis). -/
theorem no_tunneling_threshold_witness :
    tunnelAxis (.fin (1 / 60)) [("dx", .fin 1)]
      [("x", .float (.fin 0))] [("x", .float (.fin 100))] 1 0 "x" "dx" ≠ [] :=
  ((no_tunneling_threshold.1 (1 / 60) [("dx", .fin 1)]
      [("x", .float (.fin 0))] [("x", .float (.fin 100))] 1 0 "x" "dx"
      0 100 1 rfl rfl rfl).mpr (by norm_num))

-- Shared lemmas about the behavior evaluator (used by C1, C3 and C9).

/-- The single-tick evaluator returns false for every AFTER trigger. -/
theorem checkTrigger_after {t : Trigger} (h : t.type = .after)
    (m : TickManifest) : checkTrigger t m = .ok false := by
  cases t with
  | mk ty ps cs =>
    simp only [Trigger.type] at h
    subst h
    rfl

/-- A trigger scan over manifests none of which fire yields no index. -/
theorem triggerScanFrom_never (t : Trigger) (ms : List TickManifest)
    (h : ∀ m ∈ ms, checkTrigger t m = .ok false) :
    ∀ s, triggerScanFrom t s ms = .ok Option.none := by
  induction ms with
  | nil => intro s; rfl
  | cons m rest ih =>
    intro s
    rw [triggerScanFrom, h m (List.mem_cons_self _ _)]
    exact ih (fun x hx => h x (List.mem_cons_of_mem _ hx)) (s + 1)

/-- A trigger scan finds the first firing index. -/
theorem triggerScanFrom_first (t : Trigger) :
    ∀ (ms : List TickManifest) (k s : ℕ) (mk : TickManifest),
      ms.get? k = some mk →
      checkTrigger t mk = .ok true →
      (∀ j, j < k → ∀ m, ms.get? j = some m → checkTrigger t m = .ok false) →
      triggerScanFrom t s ms = .ok (some (s + k))
  | [], k, s, mk, hk, _, _ => by simp at hk
  | m :: rest, 0, s, mk, hk, htrue, _ => by
    simp only [List.get?_cons_zero, Option.some.injEq] at hk
    subst hk
    rw [triggerScanFrom, htrue]
    rfl
  | m :: rest, k + 1, s, mk, hk, htrue, hfirst => by
    have h0 : checkTrigger t m = .ok false :=
      hfirst 0 (Nat.succ_pos k) m rfl
    rw [triggerScanFrom, h0]
    have := triggerScanFrom_first t rest k (s + 1) mk hk htrue
      (fun j hj m' hm' => hfirst (j + 1) (Nat.succ_lt_succ hj) m' hm')
    calc triggerScanFrom t (s + 1) rest = .ok (some (s + 1 + k)) := this
      _ = .ok (some (s + (k + 1))) := by rw [Nat.add_assoc, Nat.add_comm 1 k]

/-- Python positive indexing hits the list element. -/
theorem pyIndex_nat {α : Type} (l : List α) (k : ℕ) (x : α)
    (h : l.get? k = some x) : pyIndex l (k : ℤ) = .ok x := by
  rw [pyIndex]
  simp only [Int.ofNat_nonneg, if_true, Int.toNat_ofNat, h]

/-- Python negative indexing wraps to the end of the list. -/
theorem pyIndex_neg {α : Type} (l : List α) (i : ℤ) (x : α)
    (hneg : i < 0) (h : l.get? ((l.length : ℤ) + i).toNat = some x)
    (hge : 0 ≤ (l.length : ℤ) + i) : pyIndex l i = .ok x := by
  rw [pyIndex]
  rw [if_neg (by omega)]
  simp only [hge, if_true, h]

/-- Python indexing below `-len` raises IndexError. -/
theorem pyIndex_below {α : Type} (l : List α) (i : ℤ)
    (h : i < -(l.length : ℤ)) : pyIndex l i = .error .indexError := by
  rw [pyIndex]
  rw [if_neg (by omega), if_neg (by omega)]

/-- A successful Python index yields a member of the list. -/
theorem pyIndex_mem {α : Type} {l : List α} {i : ℤ} {x : α}
    (h : pyIndex l i = .ok x) : x ∈ l := by
  rw [pyIndex] at h
  by_cases h0 : 0 ≤ i
  · rw [if_pos h0] at h
    cases hx : l.get? i.toNat with
    | none => rw [hx] at h; exact Except.noConfusion h
    | some y =>
      rw [hx] at h
      cases h
      exact List.get?_mem hx
  · rw [if_neg h0] at h
    by_cases h1 : 0 ≤ (l.length : ℤ) + i
    · rw [if_pos h1] at h
      cases hx : l.get? ((l.length : ℤ) + i).toNat with
      | none => rw [hx] at h; exact Except.noConfusion h
      | some y =>
        rw [hx] at h
        cases h
        exact List.get?_mem hx
    · rw [if_neg h1] at h
      exact Except.noConfusion h

/-- Python indexing succeeds for every index in `[-len, len)`. -/
theorem pyIndex_ok {α : Type} (l : List α) (i : ℤ)
    (hlo : -(l.length : ℤ) ≤ i) (hhi : i < (l.length : ℤ)) :
    ∃ x, pyIndex l i = .ok x := by
  by_cases h0 : 0 ≤ i
  · have hk : i.toNat < l.length := by omega
    refine ⟨l.get ⟨i.toNat, hk⟩, ?_⟩
    rw [pyIndex, if_pos h0, List.get?_eq_get hk]
  · have hk : ((l.length : ℤ) + i).toNat < l.length := by omega
    refine ⟨l.get ⟨((l.length : ℤ) + i).toNat, hk⟩, ?_⟩
    rw [pyIndex, if_neg h0, if_pos (by omega), List.get?_eq_get hk]

/-- `intRange` is empty when the bounds are degenerate. -/
theorem intRange_nil {a b : ℤ} (h : b ≤ a) : intRange a b = [] := by
  rw [intRange]
  have : (b - a).toNat = 0 := by omega
  rw [this]
  rfl

/-- `intRange` peels its first element. -/
theorem intRange_cons {a b : ℤ} (h : a < b) :
    intRange a b = a :: intRange (a + 1) b := by
  rw [intRange, intRange]
  have h1 : (b - a).toNat = (b - (a + 1)).toNat + 1 := by omega
  rw [h1, List.range_succ_eq_map]
  simp only [List.map_cons, List.map_map]
  refine List.cons_eq_cons.mpr ⟨by simp, ?_⟩
  apply List.map_congr_left
  intro k _
  simp only [Function.comp_apply]
  push_cast
  ring

/-- Membership in an integer range. -/
theorem mem_intRange {i a b : ℤ} : i ∈ intRange a b ↔ a ≤ i ∧ i < b := by
  rw [intRange]
  constructor
  · intro hmem
    obtain ⟨k, hk, hke⟩ := List.mem_map.mp hmem
    rw [List.mem_range] at hk
    omega
  · intro ⟨h1, h2⟩
    refine List.mem_map.mpr ⟨(i - a).toNat, ?_, ?_⟩
    · rw [List.mem_range]
      omega
    · omega

/-- Splitting an integer range at an interior point. -/
theorem intRange_append (a j b : ℤ) (h1 : a ≤ j) (h2 : j ≤ b) :
    intRange a b = intRange a j ++ intRange j b := by
  have key : ∀ (n : ℕ) (a : ℤ), a ≤ j → (j - a).toNat = n →
      intRange a b = intRange a j ++ intRange j b := by
    intro n
    induction n with
    | zero =>
      intro a ha hn
      have : j = a := by omega
      subst this
      rw [intRange_nil (le_refl j), List.nil_append]
    | succ n ih =>
      intro a ha hn
      have haj : a < j := by omega
      have hab : a < b := by omega
      rw [intRange_cons hab, intRange_cons haj, List.cons_append]
      congr 1
      exact ih (a + 1) (by omega) (by omega)
  exact key (j - a).toNat a h1 rfl

/-- The phase-2 loop passes at the first index whose manifest satisfies
the expected outcome, collecting that manifest's changes as evidence. -/
theorem behaviorExpectedLoop_pass (n : String) (e : Expected) (tmo tt : ℤ)
    (ms : List TickManifest) :
    ∀ (pre : List ℤ) (j : ℤ) (rest : List ℤ) (mj : TickManifest),
      (∀ i ∈ pre, ∃ m, pyIndex ms i = .ok m ∧ checkExpected e m = .ok false) →
      pyIndex ms j = .ok mj → checkExpected e mj = .ok true →
      behaviorExpectedLoop n e tmo tt ms (pre ++ j :: rest) =
        .ok { intent_name := n, passed := true, trigger_tick := some tt,
              evidence := mj.component_changes }
  | [], j, rest, mj, _, hj, htrue => by
    rw [List.nil_append, behaviorExpectedLoop, hj]
    simp only [htrue]
  | i0 :: pre, j, rest, mj, hpre, hj, htrue => by
    obtain ⟨m0, hm0, hf0⟩ := hpre i0 (List.mem_cons_self _ _)
    rw [List.cons_append, behaviorExpectedLoop, hm0]
    simp only [hf0]
    exact behaviorExpectedLoop_pass n e tmo tt ms pre j rest mj
      (fun x hx => hpre x (List.mem_cons_of_mem _ hx)) hj htrue

/-- The phase-2 loop returns a result (never an exception) carrying the
trigger tick whenever every index in the window resolves and evaluates
without error. -/
theorem behaviorExpectedLoop_ok (n : String) (e : Expected) (tmo tt : ℤ)
    (ms : List TickManifest) :
    ∀ idxs,
      (∀ i ∈ idxs, ∃ m, pyIndex ms i = .ok m ∧ ∃ b, checkExpected e m = .ok b) →
      ∃ r, behaviorExpectedLoop n e tmo tt ms idxs = .ok r ∧
        r.trigger_tick = some tt
  | [], _ => ⟨_, rfl, rfl⟩
  | i0 :: rest, h => by
    obtain ⟨m0, hm0, b, hb⟩ := h i0 (List.mem_cons_self _ _)
    rw [behaviorExpectedLoop, hm0]
    cases b with
    | true =>
      simp only [hb]
      exact ⟨_, rfl, rfl⟩
    | false =>
      simp only [hb]
      exact behaviorExpectedLoop_ok n e tmo tt ms rest
        (fun x hx => h x (List.mem_cons_of_mem _ hx))

/-- A successful trigger scan yields an index in `[s, s + length)`. -/
theorem triggerScanFrom_lt (t : Trigger) :
    ∀ (ms : List TickManifest) (s j : ℕ),
      triggerScanFrom t s ms = .ok (some j) → s ≤ j ∧ j < s + ms.length
  | [], s, j, h => by
    rw [triggerScanFrom] at h
    simp at h
  | m :: rest, s, j, h => by
    rw [triggerScanFrom] at h
    cases hc : checkTrigger t m with
    | error err =>
      rw [hc] at h
      exact Except.noConfusion h
    | ok b =>
      rw [hc] at h
      cases b with
      | true =>
        simp only [Except.ok.injEq, Option.some.injEq] at h
        subst h
        exact ⟨le_refl s, by simp only [List.length_cons]; omega⟩
      | false =>
        obtain ⟨h1, h2⟩ := triggerScanFrom_lt t rest (s + 1) j h
        exact ⟨by omega, by simp only [List.length_cons]; omega⟩

/-- Unfolding `_resolve_after_trigger` on a trigger built by `after`. -/
theorem resolveAfterTrigger_after (child : Trigger) (d : ℤ)
    (ms : List TickManifest) :
    resolveAfterTrigger (after child d) ms =
      match triggerScanFrom child 0 ms with
      | .error err => .error err
      | .ok Option.none => .ok (Option.none, "child trigger never fired")
      | .ok (some child_idx) =>
        if (child_idx : ℤ) + d ≥ (ms.length : ℤ) then
          .ok (Option.none,
            "child trigger fired at tick index " ++ toString child_idx ++
            " but delay of " ++ toString d ++
            " ticks exceeds available manifests (need index " ++
            toString ((child_idx : ℤ) + d) ++ ", have " ++
            toString ms.length ++ ")")
        else .ok (some ((child_idx : ℤ) + d), "") := rfl

/-- The AFTER resolution when the child fires in range. -/
theorem resolveAfterTrigger_fired (child : Trigger) (d : ℤ)
    (ms : List TickManifest) (i : ℕ)
    (hs : triggerScanFrom child 0 ms = .ok (some i))
    (hlt : (i : ℤ) + d < (ms.length : ℤ)) :
    resolveAfterTrigger (after child d) ms = .ok (some ((i : ℤ) + d), "") := by
  rw [resolveAfterTrigger_after, hs]
  exact if_neg (by omega)

/-- The AFTER resolution when the delay runs past the manifest list. -/
theorem resolveAfterTrigger_overflow (child : Trigger) (d : ℤ)
    (ms : List TickManifest) (i : ℕ)
    (hs : triggerScanFrom child 0 ms = .ok (some i))
    (hge : (i : ℤ) + d ≥ (ms.length : ℤ)) :
    resolveAfterTrigger (after child d) ms =
      .ok (Option.none,
        "child trigger fired at tick index " ++ toString i ++
        " but delay of " ++ toString d ++
        " ticks exceeds available manifests (need index " ++
        toString ((i : ℤ) + d) ++ ", have " ++
        toString ms.length ++ ")") := by
  rw [resolveAfterTrigger_after, hs]
  exact if_pos hge

/-- Unfolding `_verify_behavior` when the trigger is an AFTER node. -/
theorem verifyBehavior_after_eq (intent : IntentSpec) (trig : Trigger)
    (e : Expected) (ms : List TickManifest)
    (htr : intent.trigger = some trig) (hexp : intent.expected = some e)
    (hty : trig.type = .after) :
    verifyBehavior intent ms =
      match resolveAfterTrigger trig ms with
      | .error err => .error err
      | .ok (Option.none, after_reason) =>
        .ok { intent_name := intent.name, passed := false,
              failure_reason := "After trigger failed: " ++ after_reason,
              suggestion :=
                "Ensure the child trigger condition occurs during simulation " ++
                "and the delay does not exceed the simulation length." }
      | .ok (some idx, _) => behaviorPhase2 intent e ms idx := by
  rw [verifyBehavior, htr, hexp]
  have hb : (trig.type == TriggerType.after) = true := by
    rw [hty]; rfl
  simp only [hb, if_true]

/-- Unfolding `_verify_behavior` when the trigger is not an AFTER node. -/
theorem verifyBehavior_scan_eq (intent : IntentSpec) (trig : Trigger)
    (e : Expected) (ms : List TickManifest)
    (htr : intent.trigger = some trig) (hexp : intent.expected = some e)
    (hty : trig.type ≠ .after) :
    verifyBehavior intent ms =
      match triggerScanFrom trig 0 ms with
      | .error err => .error err
      | .ok Option.none =>
        .ok { intent_name := intent.name, passed := false,
              failure_reason :=
                "Trigger '" ++ trig.type.value ++ "' never fired across " ++
                toString ms.length ++ " ticks",
              suggestion :=
                "Ensure the game state produces the trigger condition. " ++
                "Check that the relevant entities exist and interact correctly." }
      | .ok (some i) => behaviorPhase2 intent e ms (i : ℤ) := by
  rw [verifyBehavior, htr, hexp]
  have hb : (trig.type == TriggerType.after) = false := by
    cases h2 : trig.type <;> first | rfl | exact absurd h2 hty
  simp only [hb, Bool.false_eq_true, if_false]

/-- C3: AFTER trigger semantics. (a) `After(child, 0)` yields the same
`passed` and `trigger_tick` as the bare child trigger on the same intent;
(b) with the child first firing at index `i` and `i + k` in range, the
trigger resolves to index `i + k`; (c) if `i + k` runs past the manifest
list the intent fails with the delay-exceeds-manifests reason, which is
distinct from the never-fired reason; (d) if the child never fires the
reason is exactly "After trigger failed: child trigger never fired". -/
theorem after_trigger_semantics :
    (∀ (base : IntentSpec) (child : Trigger) (e : Expected)
       (ms : List TickManifest),
       child.type ≠ .after →
       base.expected = some e →
       ∀ r1 r2,
         verifyBehavior { base with trigger := some (after child 0) } ms
           = .ok r1 →
         verifyBehavior { base with trigger := some child } ms = .ok r2 →
         r1.passed = r2.passed ∧ r1.trigger_tick = r2.trigger_tick) ∧
    (∀ (child : Trigger) (d : ℤ) (ms : List TickManifest) (i : ℕ)
       (mi : TickManifest),
       ms.get? i = some mi →
       checkTrigger child mi = .ok true →
       (∀ j, j < i → ∀ m, ms.get? j = some m →
         checkTrigger child m = .ok false) →
       (i : ℤ) + d < (ms.length : ℤ) →
       resolveAfterTrigger (after child d) ms = .ok (some ((i : ℤ) + d), "")) ∧
    (∀ (base : IntentSpec) (child : Trigger) (d : ℤ) (e : Expected)
       (ms : List TickManifest) (i : ℕ) (mi : TickManifest),
       base.expected = some e →
       ms.get? i = some mi →
       checkTrigger child mi = .ok true →
       (∀ j, j < i → ∀ m, ms.get? j = some m →
         checkTrigger child m = .ok false) →
       (i : ℤ) + d ≥ (ms.length : ℤ) →
       ∃ r, verifyBehavior { base with trigger := some (after child d) } ms
           = .ok r ∧
         r.passed = false ∧
         r.failure_reason =
           "After trigger failed: " ++
           ("child trigger fired at tick index " ++ toString i ++
            " but delay of " ++ toString d ++
            " ticks exceeds available manifests (need index " ++
            toString ((i : ℤ) + d) ++ ", have " ++
            toString ms.length ++ ")") ∧
         r.failure_reason ≠ "After trigger failed: child trigger never fired") ∧
    (∀ (base : IntentSpec) (child : Trigger) (d : ℤ) (e : Expected)
       (ms : List TickManifest),
       base.expected = some e →
       (∀ m ∈ ms, checkTrigger child m = .ok false) →
       ∃ r, verifyBehavior { base with trigger := some (after child d) } ms
           = .ok r ∧
         r.passed = false ∧
         r.failure_reason = "After trigger failed: child trigger never fired") := by
  refine ⟨?_, ?_, ?_, ?_⟩
  · intro base child e ms hch hexp r1 r2 h1 h2
    rw [verifyBehavior_after_eq { base with trigger := some (after child 0) }
          (after child 0) e ms rfl hexp rfl] at h1
    rw [verifyBehavior_scan_eq { base with trigger := some child }
          child e ms rfl hexp hch] at h2
    cases hs : triggerScanFrom child 0 ms with
    | error err =>
      have hres : resolveAfterTrigger (after child 0) ms = .error err := by
        rw [resolveAfterTrigger_after, hs]
      rw [hres] at h1
      exact Except.noConfusion h1
    | ok o =>
      cases o with
      | none =>
        have hres : resolveAfterTrigger (after child 0) ms
            = .ok (Option.none, "child trigger never fired") := by
          rw [resolveAfterTrigger_after, hs]
        rw [hres] at h1
        rw [hs] at h2
        have e1 := Except.ok.inj h1
        have e2 := Except.ok.inj h2
        rw [← e1, ← e2]
        exact ⟨rfl, rfl⟩
      | some i =>
        obtain ⟨hle, hlt⟩ := triggerScanFrom_lt child ms 0 i hs
        have hres := resolveAfterTrigger_fired child 0 ms i hs
          (by omega : (i : ℤ) + 0 < (ms.length : ℤ))
        rw [hres] at h1
        rw [hs] at h2
        have h1' : behaviorPhase2 { base with trigger := some child } e ms
            ((i : ℤ) + 0) = .ok r1 := h1
        rw [add_zero] at h1'
        have h2' : behaviorPhase2 { base with trigger := some child } e ms
            ((i : ℤ)) = .ok r2 := h2
        have hr : r1 = r2 := Except.ok.inj (h1'.symm.trans h2')
        rw [hr]
        exact ⟨rfl, rfl⟩
  · intro child d ms i mi hget htrue hfirst hlt
    have hs := triggerScanFrom_first child ms i 0 mi hget htrue hfirst
    rw [Nat.zero_add] at hs
    exact resolveAfterTrigger_fired child d ms i hs hlt
  · intro base child d e ms i mi hexp hget htrue hfirst hge
    have hs := triggerScanFrom_first child ms i 0 mi hget htrue hfirst
    rw [Nat.zero_add] at hs
    have hres := resolveAfterTrigger_overflow child d ms i hs hge
    refine ⟨{ intent_name := base.name, passed := false,
              failure_reason :=
                "After trigger failed: " ++
                ("child trigger fired at tick index " ++ toString i ++
                 " but delay of " ++ toString d ++
                 " ticks exceeds available manifests (need index " ++
                 toString ((i : ℤ) + d) ++ ", have " ++
                 toString ms.length ++ ")"),
              suggestion :=
                "Ensure the child trigger condition occurs during simulation " ++
                "and the delay does not exceed the simulation length." },
            ?_, rfl, rfl, ?_⟩
    · rw [verifyBehavior_after_eq { base with trigger := some (after child d) }
            (after child d) e ms rfl hexp rfl, hres]
    · intro hcontra
      have hlen := congrArg String.length hcontra
      simp only [String.length_append] at hlen
      rw [show ("After trigger failed: ").length = 22 from rfl,
          show ("child trigger fired at tick index ").length = 34 from rfl,
          show (" but delay of ").length = 14 from rfl,
          show (" ticks exceeds available manifests (need index ").length = 47
            from rfl,
          show (", have ").length = 7 from rfl,
          show (")").length = 1 from rfl,
          show ("After trigger failed: child trigger never fired").length = 47
            from rfl] at hlen
      omega
  · intro base child d e ms hexp hnever
    have hs := triggerScanFrom_never child ms hnever 0
    have hres : resolveAfterTrigger (after child d) ms
        = .ok (Option.none, "child trigger never fired") := by
      rw [resolveAfterTrigger_after, hs]
    refine ⟨{ intent_name := base.name, passed := false,
              failure_reason :=
                "After trigger failed: " ++ "child trigger never fired",
              suggestion :=
                "Ensure the child trigger condition occurs during simulation " ++
                "and the delay does not exceed the simulation length." },
            ?_, rfl, rfl⟩
    rw [verifyBehavior_after_eq { base with trigger := some (after child d) }
          (after child d) e ms rfl hexp rfl, hres]

/-- C3 (witness): an AFTER intent whose child never fires over an empty
manifest list fails with the never-fired reason. -/
theorem after_trigger_semantics_witness :
    ∃ r, verifyBehavior
        { name := "w", kind := .behavior, description := "",
          trigger := some (after (tick_reached 5) 3),
          expected := some (event_emitted "boom") } [] = .ok r ∧
      r.passed = false ∧
      r.failure_reason = "After trigger failed: child trigger never fired" :=
  after_trigger_semantics.2.2.2
    { name := "w", kind := .behavior, description := "",
      trigger := some (after (tick_reached 5) 3),
      expected := some (event_emitted "boom") }
    (tick_reached 5) 3 (event_emitted "boom") [] rfl
    (fun m hm => absurd hm (List.not_mem_nil m))

/-- Python indexing with a nonnegative integer index reads the list. -/
theorem pyIndex_nonneg {α : Type} (l : List α) (k : ℤ) (x : α) (h0 : 0 ≤ k)
    (h : l.get? k.toNat = some x) : pyIndex l k = .ok x := by
  rw [pyIndex, if_pos h0, h]

/-- C9: a negative AFTER delay is unguarded. With the child first firing
at index `i` and delay `d`, the resolution guard only rejects
`i + d ≥ len`: (a) when `-len ≤ i + d < 0` verification returns a result
whose trigger tick is read by Python negative indexing, i.e. from the
manifest at position `len + (i + d)` counted from the start (wrap-around)
instead of failing; (b) when `i + d < -len` verification raises an
uncaught IndexError instead of returning a failed result. -/
theorem after_negative_delay_unguarded :
    (∀ (base : IntentSpec) (child : Trigger) (d : ℤ) (e : Expected)
       (ms : List TickManifest) (i : ℕ) (mi : TickManifest),
       base.expected = some e →
       ms.get? i = some mi →
       checkTrigger child mi = .ok true →
       (∀ j, j < i → ∀ m, ms.get? j = some m →
         checkTrigger child m = .ok false) →
       -(ms.length : ℤ) ≤ (i : ℤ) + d →
       (i : ℤ) + d < 0 →
       (∀ m ∈ ms, ∃ b, checkExpected e m = .ok b) →
       ∃ r m, verifyBehavior { base with trigger := some (after child d) } ms
           = .ok r ∧
         ms.get? ((ms.length : ℤ) + ((i : ℤ) + d)).toNat = some m ∧
         r.trigger_tick = some m.tick) ∧
    (∀ (base : IntentSpec) (child : Trigger) (d : ℤ) (e : Expected)
       (ms : List TickManifest) (i : ℕ) (mi : TickManifest),
       base.expected = some e →
       ms.get? i = some mi →
       checkTrigger child mi = .ok true →
       (∀ j, j < i → ∀ m, ms.get? j = some m →
         checkTrigger child m = .ok false) →
       (i : ℤ) + d < -(ms.length : ℤ) →
       verifyBehavior { base with trigger := some (after child d) } ms
         = .error .indexError) := by
  constructor
  · intro base child d e ms i mi hexp hget htrue hfirst hlo hhi hexpOk
    have hs := triggerScanFrom_first child ms i 0 mi hget htrue hfirst
    rw [Nat.zero_add] at hs
    have hres := resolveAfterTrigger_fired child d ms i hs (by omega)
    have hk : ((ms.length : ℤ) + ((i : ℤ) + d)).toNat < ms.length := by omega
    have hgetm := List.get?_eq_get hk
    have hpy : pyIndex ms ((i : ℤ) + d)
        = .ok (ms.get ⟨((ms.length : ℤ) + ((i : ℤ) + d)).toNat, hk⟩) :=
      pyIndex_neg ms ((i : ℤ) + d) _ hhi hgetm (by omega)
    have hyp : ∀ k ∈ intRange ((i : ℤ) + d)
        (min (((i : ℤ) + d) + base.timeout_ticks) (ms.length : ℤ)),
        ∃ mm, pyIndex ms k = .ok mm ∧ ∃ b, checkExpected e mm = .ok b := by
      intro k hkmem
      obtain ⟨hk1, hk2⟩ := mem_intRange.mp hkmem
      have hk3 : k < (ms.length : ℤ) := lt_of_lt_of_le hk2 (min_le_right _ _)
      obtain ⟨mm, hmm⟩ := pyIndex_ok ms k (by omega) hk3
      exact ⟨mm, hmm, hexpOk mm (pyIndex_mem hmm)⟩
    obtain ⟨r, hr, htt⟩ := behaviorExpectedLoop_ok base.name e
      base.timeout_ticks
      (ms.get ⟨((ms.length : ℤ) + ((i : ℤ) + d)).toNat, hk⟩).tick ms
      (intRange ((i : ℤ) + d)
        (min (((i : ℤ) + d) + base.timeout_ticks) (ms.length : ℤ))) hyp
    refine ⟨r, ms.get ⟨((ms.length : ℤ) + ((i : ℤ) + d)).toNat, hk⟩,
            ?_, hgetm, htt⟩
    rw [verifyBehavior_after_eq { base with trigger := some (after child d) }
          (after child d) e ms rfl hexp rfl, hres]
    have hphase : behaviorPhase2
        { base with trigger := some (after child d) } e ms ((i : ℤ) + d)
        = .ok r := by
      rw [behaviorPhase2, hpy]
      exact hr
    exact hphase
  · intro base child d e ms i mi hexp hget htrue hfirst hbelow
    have hs := triggerScanFrom_first child ms i 0 mi hget htrue hfirst
    rw [Nat.zero_add] at hs
    have hres := resolveAfterTrigger_fired child d ms i hs (by omega)
    rw [verifyBehavior_after_eq { base with trigger := some (after child d) }
          (after child d) e ms rfl hexp rfl, hres]
    have hpy : pyIndex ms ((i : ℤ) + d) = .error .indexError :=
      pyIndex_below ms ((i : ℤ) + d) (by omega)
    have hphase : behaviorPhase2
        { base with trigger := some (after child d) } e ms ((i : ℤ) + d)
        = .error .indexError := by
      rw [behaviorPhase2, hpy]
    exact hphase

/-- C9 (witness): delay `-1` on a child firing at index 0 of a single
manifest with tick 7 wraps around and reports trigger tick 7. -/
theorem after_negative_delay_unguarded_witness :
    ∃ r m, verifyBehavior
        { name := "w", kind := .behavior, description := "",
          trigger := some (after (tick_reached 0) (-1)),
          expected := some (event_emitted "boom") }
        [{ tick := 7, sim_time := .fin 0, entity_spawns := [],
           entity_despawns := [], component_changes := [], events := [],
           aggregates := { entity_count_by_tier := [],
                           entity_count_by_type := [],
                           total_entity_count := 0, custom := [] },
           systems_executed := [], commands_processed := 0,
           commands_succeeded := 0 }] = .ok r ∧
      [({ tick := 7, sim_time := .fin 0, entity_spawns := [],
          entity_despawns := [], component_changes := [], events := [],
          aggregates := { entity_count_by_tier := [],
                          entity_count_by_type := [],
                          total_entity_count := 0, custom := [] },
          systems_executed := [], commands_processed := 0,
          commands_succeeded := 0 } : TickManifest)].get? 0 = some m ∧
      r.trigger_tick = some m.tick :=
  after_negative_delay_unguarded.1
    { name := "w", kind := .behavior, description := "",
      trigger := some (after (tick_reached 0) (-1)),
      expected := some (event_emitted "boom") }
    (tick_reached 0) (-1) (event_emitted "boom")
    [{ tick := 7, sim_time := .fin 0, entity_spawns := [],
       entity_despawns := [], component_changes := [], events := [],
       aggregates := { entity_count_by_tier := [],
                       entity_count_by_type := [],
                       total_entity_count := 0, custom := [] },
       systems_executed := [], commands_processed := 0,
       commands_succeeded := 0 }]
    0 _ rfl rfl rfl
    (fun j hj => absurd hj (Nat.not_lt_zero j))
    (by decide) (by decide)
    (fun m hm => by
      rw [List.mem_singleton] at hm
      subst hm
      exact ⟨false, rfl⟩)

/-- C1 (counterexample): the claimed tick-based window `T' - T ≤ timeout`
is off by one against the code's index window `[i, i + timeout)`. With
`timeout_ticks = 1`, the trigger firing at the tick-0 manifest and the
expected outcome holding at the tick-1 manifest (`T' - T = 1 ≤ 1`), the
scan window is the single index 0, so the intent fails. -/
theorem behavior_two_phase_counterexample :
    verifyBehavior
        { name := "c1", kind := .behavior, description := "",
          trigger := some (tick_reached 0),
          expected := some (event_emitted "boom"),
          timeout_ticks := 1 }
        [{ tick := 0, sim_time := .fin 0, entity_spawns := [],
           entity_despawns := [], component_changes := [], events := [],
           aggregates := { entity_count_by_tier := [],
                           entity_count_by_type := [],
                           total_entity_count := 0, custom := [] },
           systems_executed := [], commands_processed := 0,
           commands_succeeded := 0 },
         { tick := 1, sim_time := .fin 0, entity_spawns := [],
           entity_despawns := [], component_changes := [],
           events := [{ event_type := "boom", description := "",
                        involved_entities := [], caused_by_system := 0,
                        reason_type := "GameRule", reason_detail := "",
                        tick := 1 }],
           aggregates := { entity_count_by_tier := [],
                           entity_count_by_type := [],
                           total_entity_count := 0, custom := [] },
           systems_executed := [], commands_processed := 0,
           commands_succeeded := 0 }] =
      .ok { intent_name := "c1", passed := false,
            trigger_tick := some 0,
            failure_reason :=
              "Expected outcome 'event_emitted' not met within 1 ticks " ++
              "after trigger at tick 0",
            suggestion :=
              "The trigger fired but the expected outcome was not observed. " ++
              "Check the gameplay logic that should respond to the trigger event." } ∧
    checkTrigger (tick_reached 0)
      { tick := 0, sim_time := .fin 0, entity_spawns := [],
        entity_despawns := [], component_changes := [], events := [],
        aggregates := { entity_count_by_tier := [],
                        entity_count_by_type := [],
                        total_entity_count := 0, custom := [] },
        systems_executed := [], commands_processed := 0,
        commands_succeeded := 0 } = .ok true ∧
    checkExpected (event_emitted "boom")
      { tick := 1, sim_time := .fin 0, entity_spawns := [],
        entity_despawns := [], component_changes := [],
        events := [{ event_type := "boom", description := "",
                     involved_entities := [], caused_by_system := 0,
                     reason_type := "GameRule", reason_detail := "",
                     tick := 1 }],
        aggregates := { entity_count_by_tier := [],
                        entity_count_by_type := [],
                        total_entity_count := 0, custom := [] },
        systems_executed := [], commands_processed := 0,
        commands_succeeded := 0 } = .ok true ∧
    ((1 : ℤ) - 0 ≤ 1) :=
  ⟨by with_unfolding_all rfl, rfl, rfl, by decide⟩

/-- C1 (corrected): the two-phase behavior contract with the window
strict at the top. If the trigger (not an AFTER node) first fires at
manifest index `i`, and the expected outcome first holds at index `j`
with `i ≤ j < i + timeout_ticks`, then the intent passes with
`trigger_tick` the tick of manifest `i` and the changes of manifest `j`
as evidence. -/
theorem behavior_two_phase (base : IntentSpec) (trig : Trigger)
    (e : Expected) (ms : List TickManifest) (i j : ℕ)
    (mi mj : TickManifest)
    (htr : base.trigger = some trig) (hexp : base.expected = some e)
    (hty : trig.type ≠ .after)
    (hgeti : ms.get? i = some mi)
    (htrue : checkTrigger trig mi = .ok true)
    (hfirst : ∀ k, k < i → ∀ m, ms.get? k = some m →
      checkTrigger trig m = .ok false)
    (hgetj : ms.get? j = some mj)
    (hij : i ≤ j)
    (hwin : (j : ℤ) < (i : ℤ) + base.timeout_ticks)
    (hetrue : checkExpected e mj = .ok true)
    (hefalse : ∀ k, i ≤ k → k < j → ∀ m, ms.get? k = some m →
      checkExpected e m = .ok false) :
    verifyBehavior base ms =
      .ok { intent_name := base.name, passed := true,
            trigger_tick := some mi.tick,
            evidence := mj.component_changes } := by
  have hs := triggerScanFrom_first trig ms i 0 mi hgeti htrue hfirst
  rw [Nat.zero_add] at hs
  have hjlen : j < ms.length := by
    obtain ⟨h, _⟩ := List.get?_eq_some.mp hgetj
    exact h
  have hjlt : (j : ℤ) < min ((i : ℤ) + base.timeout_ticks) (ms.length : ℤ) :=
    lt_min hwin (by exact_mod_cast hjlen)
  have hpyi : pyIndex ms (i : ℤ) = .ok mi :=
    pyIndex_nonneg ms (i : ℤ) mi (by omega) (by simpa using hgeti)
  have hpyj : pyIndex ms (j : ℤ) = .ok mj :=
    pyIndex_nonneg ms (j : ℤ) mj (by omega) (by simpa using hgetj)
  have hpre : ∀ k ∈ intRange (i : ℤ) (j : ℤ),
      ∃ m, pyIndex ms k = .ok m ∧ checkExpected e m = .ok false := by
    intro k hkmem
    obtain ⟨hk1, hk2⟩ := mem_intRange.mp hkmem
    have hklen : k.toNat < ms.length := by omega
    have hgetk := List.get?_eq_get hklen
    refine ⟨ms.get ⟨k.toNat, hklen⟩,
            pyIndex_nonneg ms k _ (by omega) hgetk, ?_⟩
    exact hefalse k.toNat (by omega) (by omega) _ hgetk
  have hloop := behaviorExpectedLoop_pass base.name e base.timeout_ticks
    mi.tick ms (intRange (i : ℤ) (j : ℤ)) (j : ℤ)
    (intRange ((j : ℤ) + 1)
      (min ((i : ℤ) + base.timeout_ticks) (ms.length : ℤ)))
    mj hpre hpyj hetrue
  rw [verifyBehavior_scan_eq base trig e ms htr hexp hty, hs]
  have hphase : behaviorPhase2 base e ms (i : ℤ) =
      .ok { intent_name := base.name, passed := true,
            trigger_tick := some mi.tick,
            evidence := mj.component_changes } := by
    rw [behaviorPhase2, hpyi]
    show behaviorExpectedLoop base.name e base.timeout_ticks mi.tick ms
      (intRange (i : ℤ)
        (min ((i : ℤ) + base.timeout_ticks) (ms.length : ℤ))) = _
    rw [intRange_append (i : ℤ) (j : ℤ)
          (min ((i : ℤ) + base.timeout_ticks) (ms.length : ℤ))
          (by omega) (le_of_lt hjlt),
        intRange_cons hjlt]
    exact hloop
  exact hphase

/-- C1 (witness): the corrected contract at a concrete fixture where the
trigger fires and the expected outcome holds on the same manifest. -/
theorem behavior_two_phase_witness :
    verifyBehavior
        { name := "w1", kind := .behavior, description := "",
          trigger := some (tick_reached 0),
          expected := some (event_emitted "boom") }
        [{ tick := 0, sim_time := .fin 0, entity_spawns := [],
           entity_despawns := [], component_changes := [],
           events := [{ event_type := "boom", description := "",
                        involved_entities := [], caused_by_system := 0,
                        reason_type := "GameRule", reason_detail := "",
                        tick := 0 }],
           aggregates := { entity_count_by_tier := [],
                           entity_count_by_type := [],
                           total_entity_count := 0, custom := [] },
           systems_executed := [], commands_processed := 0,
           commands_succeeded := 0 }] =
      .ok { intent_name := "w1", passed := true,
            trigger_tick := some 0, evidence := [] } :=
  behavior_two_phase
    { name := "w1", kind := .behavior, description := "",
      trigger := some (tick_reached 0),
      expected := some (event_emitted "boom") }
    (tick_reached 0) (event_emitted "boom")
    [{ tick := 0, sim_time := .fin 0, entity_spawns := [],
       entity_despawns := [], component_changes := [],
       events := [{ event_type := "boom", description := "",
                    involved_entities := [], caused_by_system := 0,
                    reason_type := "GameRule", reason_detail := "",
                    tick := 0 }],
       aggregates := { entity_count_by_tier := [],
                       entity_count_by_type := [],
                       total_entity_count := 0, custom := [] },
       systems_executed := [], commands_processed := 0,
       commands_succeeded := 0 }]
    0 0 _ _ rfl rfl (by decide) rfl rfl
    (fun k hk => absurd hk (Nat.not_lt_zero k))
    rfl (Nat.le_refl 0) (by decide) rfl
    (fun k h1 h2 => absurd h2 (Nat.not_lt_zero k))

/-- An unknown root `type` string makes `Trigger.from_dict` raise. -/
theorem trigger_fromDict_unknown (kvs : List (String × Value))
    (h : TriggerType.ofString? (pyStr (dgetD kvs "type" (.str "")))
      = Option.none) :
    Trigger.fromDict (.dict kvs) =
      .error (.valueError ("'" ++ pyStr (dgetD kvs "type" (.str "")) ++
        "' is not a valid TriggerType")) := by
  rw [Trigger.fromDict, h]

/-- An erroring element makes the children list parser error. -/
theorem trigger_fromDictList_error :
    ∀ (xs : List Value) (x : Value) (err : PyErr),
      x ∈ xs → Trigger.fromDict x = .error err →
      ∃ err2, Trigger.fromDictList xs = .error err2
  | [], x, err, hx, _ => absurd hx (List.not_mem_nil x)
  | y :: rest, x, err, hx, herr => by
    rw [Trigger.fromDictList]
    cases hy : Trigger.fromDict y with
    | error e =>
      exact ⟨e, rfl⟩
    | ok t =>
      have hxr : x ∈ rest := by
        rcases List.mem_cons.mp hx with hxy | hxr
        · subst hxy
          rw [hy] at herr
          exact Except.noConfusion herr
        · exact hxr
      obtain ⟨e2, he2⟩ := trigger_fromDictList_error rest x err hxr herr
      exact ⟨e2, by rw [he2]; rfl⟩

/-- `Expected.from_dict` analogue of `trigger_fromDict_unknown`. -/
theorem expected_fromDict_unknown (kvs : List (String × Value))
    (h : ExpectedType.ofString? (pyStr (dgetD kvs "type" (.str "")))
      = Option.none) :
    Expected.fromDict (.dict kvs) =
      .error (.valueError ("'" ++ pyStr (dgetD kvs "type" (.str "")) ++
        "' is not a valid ExpectedType")) := by
  rw [Expected.fromDict, h]

/-- `Expected.from_dict` analogue of `trigger_fromDictList_error`. -/
theorem expected_fromDictList_error :
    ∀ (xs : List Value) (x : Value) (err : PyErr),
      x ∈ xs → Expected.fromDict x = .error err →
      ∃ err2, Expected.fromDictList xs = .error err2
  | [], x, err, hx, _ => absurd hx (List.not_mem_nil x)
  | y :: rest, x, err, hx, herr => by
    rw [Expected.fromDictList]
    cases hy : Expected.fromDict y with
    | error e =>
      exact ⟨e, rfl⟩
    | ok t =>
      have hxr : x ∈ rest := by
        rcases List.mem_cons.mp hx with hxy | hxr
        · subst hxy
          rw [hy] at herr
          exact Except.noConfusion herr
        · exact hxr
      obtain ⟨e2, he2⟩ := expected_fromDictList_error rest x err hxr herr
      exact ⟨e2, by rw [he2]; rfl⟩

/-- C7: unknown DSL variant tags fail loudly. (a) A `Trigger` dict whose
`type` string is not a known variant name deserializes to a ValueError
naming the bad tag; (b) if any element of a composite trigger's
`children` list fails to parse, the parent fails too (never silently
dropped); (c) and (d): the same two facts for `Expected`. -/
theorem unknown_tag_fails_loudly :
    (∀ (kvs : List (String × Value)),
      TriggerType.ofString? (pyStr (dgetD kvs "type" (.str "")))
        = Option.none →
      Trigger.fromDict (.dict kvs) =
        .error (.valueError ("'" ++ pyStr (dgetD kvs "type" (.str "")) ++
          "' is not a valid TriggerType"))) ∧
    (∀ (kvs : List (String × Value)) (ty : TriggerType) (xs : List Value)
       (x : Value) (err : PyErr),
      TriggerType.ofString? (pyStr (dgetD kvs "type" (.str ""))) = some ty →
      lookupV kvs "children" = some (.list xs) →
      x ∈ xs → Trigger.fromDict x = .error err →
      ∃ err2, Trigger.fromDict (.dict kvs) = .error err2) ∧
    (∀ (kvs : List (String × Value)),
      ExpectedType.ofString? (pyStr (dgetD kvs "type" (.str "")))
        = Option.none →
      Expected.fromDict (.dict kvs) =
        .error (.valueError ("'" ++ pyStr (dgetD kvs "type" (.str "")) ++
          "' is not a valid ExpectedType"))) ∧
    (∀ (kvs : List (String × Value)) (ty : ExpectedType) (xs : List Value)
       (x : Value) (err : PyErr),
      ExpectedType.ofString? (pyStr (dgetD kvs "type" (.str ""))) = some ty →
      lookupV kvs "children" = some (.list xs) →
      x ∈ xs → Expected.fromDict x = .error err →
      ∃ err2, Expected.fromDict (.dict kvs) = .error err2) := by
  refine ⟨trigger_fromDict_unknown, ?_, expected_fromDict_unknown, ?_⟩
  · intro kvs ty xs x err hty hcs hx herr
    obtain ⟨e2, he2⟩ := trigger_fromDictList_error xs x err hx herr
    refine ⟨e2, ?_⟩
    rw [Trigger.fromDict, hty, hcs]
    have hmap : Except.map (fun cs => Trigger.mk ty
        (match dgetD kvs "params" (Value.dict []) with
         | Value.dict m => m
         | _ => []) cs) (Trigger.fromDictList xs) = Except.error e2 := by
      rw [he2]
      rfl
    exact hmap
  · intro kvs ty xs x err hty hcs hx herr
    obtain ⟨e2, he2⟩ := expected_fromDictList_error xs x err hx herr
    refine ⟨e2, ?_⟩
    rw [Expected.fromDict, hty, hcs]
    have hmap : Except.map (fun cs => Expected.mk ty
        (match dgetD kvs "params" (Value.dict []) with
         | Value.dict m => m
         | _ => []) cs) (Expected.fromDictList xs) = Except.error e2 := by
      rw [he2]
      rfl
    exact hmap

/-- C7 (witness): the tag "bogus" is rejected with a ValueError by both
deserializers. -/
theorem unknown_tag_fails_loudly_witness :
    Trigger.fromDict (.dict [("type", .str "bogus")]) =
      .error (.valueError "'bogus' is not a valid TriggerType") ∧
    Expected.fromDict (.dict [("type", .str "bogus")]) =
      .error (.valueError "'bogus' is not a valid ExpectedType") :=
  ⟨unknown_tag_fails_loudly.1 [("type", .str "bogus")] rfl,
   unknown_tag_fails_loudly.2.2.1 [("type", .str "bogus")] rfl⟩

/-- Enum wire strings invert: `TriggerType(ty.value) = ty`. -/
theorem triggerType_value_inv (ty : TriggerType) :
    TriggerType.ofString? ty.value = some ty := by
  cases ty <;> rfl

/-- Enum wire strings invert: `ExpectedType(ty.value) = ty`. -/
theorem expectedType_value_inv (ty : ExpectedType) :
    ExpectedType.ofString? ty.value = some ty := by
  cases ty <;> rfl

/-- Enum wire strings invert: `IntentKind(k.value) = k`. -/
theorem intentKind_value_inv (k : IntentKind) :
    IntentKind.ofString? k.value = some k := by
  cases k <;> rfl

/-- `Trigger.from_dict` on a dict in the `to_dict` wire shape parses the
children and rebuilds the node. -/
theorem trigger_fromDict_known (ty : TriggerType) (ps : List (String × Value))
    (xs : List Value) :
    Trigger.fromDict (.dict [("type", .str ty.value), ("params", .dict ps),
                             ("children", .list xs)])
      = (Trigger.fromDictList xs).map (fun cs => Trigger.mk ty ps cs) := by
  have h1 : TriggerType.ofString? (pyStr (dgetD
      [("type", .str ty.value), ("params", .dict ps),
       ("children", .list xs)] "type" (.str ""))) = some ty := by
    show TriggerType.ofString? ty.value = some ty
    exact triggerType_value_inv ty
  rw [Trigger.fromDict, h1]
  rfl

/-- `Expected.from_dict` analogue of `trigger_fromDict_known`. -/
theorem expected_fromDict_known (ty : ExpectedType) (ps : List (String × Value))
    (xs : List Value) :
    Expected.fromDict (.dict [("type", .str ty.value), ("params", .dict ps),
                              ("children", .list xs)])
      = (Expected.fromDictList xs).map (fun cs => Expected.mk ty ps cs) := by
  have h1 : ExpectedType.ofString? (pyStr (dgetD
      [("type", .str ty.value), ("params", .dict ps),
       ("children", .list xs)] "type" (.str ""))) = some ty := by
    show ExpectedType.ofString? ty.value = some ty
    exact expectedType_value_inv ty
  rw [Expected.fromDict, h1]
  rfl

mutual
/-- `Trigger.from_dict` inverts `Trigger.to_dict` on every trigger. -/
theorem trigger_roundtrip : ∀ t : Trigger, Trigger.fromDict t.toDict = .ok t
  | .mk ty ps cs => by
    rw [Trigger.toDict, trigger_fromDict_known, trigger_roundtripList cs]
    rfl
termination_by structural t => t

/-- Elementwise round-trip over a trigger children list. -/
theorem trigger_roundtripList :
    ∀ ts : List Trigger, Trigger.fromDictList (Trigger.toDictList ts) = .ok ts
  | [] => by rw [Trigger.toDictList, Trigger.fromDictList]
  | t :: ts => by
    rw [Trigger.toDictList, Trigger.fromDictList, trigger_roundtrip t,
        trigger_roundtripList ts]
    rfl
termination_by structural ts => ts
end

mutual
/-- `Expected.from_dict` inverts `Expected.to_dict` on every node. -/
theorem expected_roundtrip : ∀ e : Expected, Expected.fromDict e.toDict = .ok e
  | .mk ty ps cs => by
    rw [Expected.toDict, expected_fromDict_known, expected_roundtripList cs]
    rfl
termination_by structural e => e

/-- Elementwise round-trip over an expected children list. -/
theorem expected_roundtripList :
    ∀ es : List Expected,
      Expected.fromDictList (Expected.toDictList es) = .ok es
  | [] => by rw [Expected.toDictList, Expected.fromDictList]
  | e :: es => by
    rw [Expected.toDictList, Expected.fromDictList, expected_roundtrip e,
        expected_roundtripList es]
    rfl
termination_by structural es => es
end

/-- `_parse_reason` inverts `_reason_to_dict` on canonical reasons. -/
theorem reason_roundtrip (rt rd : String)
    (h : reasonCanonical rt rd = true) :
    parseReason (reasonToDict rt rd) = (rt, rd) := by
  rw [reasonToDict]
  by_cases hc : (rt == "CollisionResponse" || rt == "StateTransition") = true
  · rw [if_pos hc]
    rw [reasonCanonical, if_pos hc] at h
    cases hj : jsonLoads? rd with
    | none => rfl
    | some j =>
      rw [hj] at h
      cases j with
      | none =>
        have hd : pyStr Value.none = rd := eq_of_beq h
        rw [← hd]
        rfl
      | bool b =>
        have hd : pyStr (Value.bool b) = rd := eq_of_beq h
        rw [← hd]
        rfl
      | int n =>
        have hd : pyStr (Value.int n) = rd := eq_of_beq h
        rw [← hd]
        rfl
      | float x =>
        have hd : pyStr (Value.float x) = rd := eq_of_beq h
        rw [← hd]
        rfl
      | str s =>
        exact absurd h Bool.false_ne_true
      | list xs =>
        have hd : jsonDumps (Value.list xs) = rd := eq_of_beq h
        rw [← hd]
        rfl
      | dict kvs =>
        have hd : jsonDumps (Value.dict kvs) = rd := eq_of_beq h
        rw [← hd]
        rfl
  · rw [if_neg hc]
    rfl

/-- Mapping `parse_entity_id` back over serialized entity ids. -/
theorem mapM_parseEntityId_ints :
    ∀ l : List ℤ, (l.map Value.int).mapM parseEntityId = .ok l
  | [] => rfl
  | n :: rest => by
    rw [List.map_cons, List.mapM_cons, mapM_parseEntityId_ints rest]
    rfl

/-- `ComponentChange.from_dict` inverts `to_dict` when the stored causal
reason is canonical. -/
theorem componentChange_roundtrip (c : ComponentChange)
    (h : c.wireWF = true) :
    ComponentChange.fromDict c.toDict = .ok c := by
  have hr : parseReason (reasonToDict c.reason_type c.reason_detail)
      = (c.reason_type, c.reason_detail) := reason_roundtrip _ _ h
  have key : ComponentChange.fromDict c.toDict =
      .ok { entity_id := c.entity_id,
            component_type_name := c.component_type_name,
            old_value := c.old_value, new_value := c.new_value,
            changed_by_system := c.changed_by_system,
            reason_type :=
              (parseReason (reasonToDict c.reason_type c.reason_detail)).1,
            reason_detail :=
              (parseReason (reasonToDict c.reason_type c.reason_detail)).2,
            command_index := c.command_index, tick := c.tick } := rfl
  rw [key, hr]

/-- `GameEvent.from_dict` inverts `to_dict` when the stored causal
reason is canonical. -/
theorem gameEvent_roundtrip (e : GameEvent) (h : e.wireWF = true) :
    GameEvent.fromDict e.toDict = .ok e := by
  have hr : parseReason (reasonToDict e.reason_type e.reason_detail)
      = (e.reason_type, e.reason_detail) := reason_roundtrip _ _ h
  have gen : ∀ x : Except PyErr (List ℤ),
      x = .ok e.involved_entities →
      Except.bind x (fun entities =>
        Except.bind (parseSystemId (.int e.caused_by_system))
          (fun caused_by_system =>
            Except.bind (pyInt (.int e.tick)) (fun tick =>
              Except.ok { event_type := e.event_type,
                          description := e.description,
                          involved_entities := entities,
                          caused_by_system := caused_by_system,
                          reason_type :=
                            (parseReason
                              (reasonToDict e.reason_type e.reason_detail)).1,
                          reason_detail :=
                            (parseReason
                              (reasonToDict e.reason_type e.reason_detail)).2,
                          tick := tick }))) = .ok e := by
    intro x hx
    rw [hx, hr]
    rfl
  exact gen _ (mapM_parseEntityId_ints e.involved_entities)

/-- Mapping `int` back over serialized string-to-int entries. -/
theorem mapM_int_pairs :
    ∀ l : List (String × ℤ),
      ((l.map (fun p => (p.1, Value.int p.2))).mapM
        (fun kv => do Except.ok (kv.1, ← pyInt kv.2))
        : Except PyErr (List (String × ℤ))) = .ok l
  | [] => rfl
  | p :: rest => by
    rw [List.map_cons, List.mapM_cons, mapM_int_pairs rest]
    rfl

/-- Mapping `float` back over serialized string-to-float entries. -/
theorem mapM_float_pairs :
    ∀ l : List (String × PyNum),
      ((l.map (fun p => (p.1, Value.float p.2))).mapM
        (fun kv => do Except.ok (kv.1, ← pyFloat kv.2))
        : Except PyErr (List (String × PyNum))) = .ok l
  | [] => rfl
  | p :: rest => by
    rw [List.map_cons, List.mapM_cons, mapM_float_pairs rest]
    rfl

/-- `Aggregates.from_dict` inverts `to_dict`. -/
theorem aggregates_roundtrip (a : Aggregates) :
    Aggregates.fromDict a.toDict = .ok a := by
  have gen : ∀ (x y : Except PyErr (List (String × ℤ)))
      (z : Except PyErr (List (String × PyNum))),
      x = .ok a.entity_count_by_tier →
      y = .ok a.entity_count_by_type →
      z = .ok a.custom →
      Except.bind x (fun tier_counts =>
        Except.bind y (fun type_counts =>
          Except.bind z (fun custom =>
            Except.bind (pyInt (.int a.total_entity_count)) (fun total =>
              Except.ok { entity_count_by_tier := tier_counts,
                          entity_count_by_type := type_counts,
                          total_entity_count := total,
                          custom := custom })))) = .ok a := by
    intro x y z hx hy hz
    rw [hx, hy, hz]
    rfl
  exact gen _ _ _ (mapM_int_pairs a.entity_count_by_tier)
    (mapM_int_pairs a.entity_count_by_type)
    (mapM_float_pairs a.custom)

/-- Elementwise round-trip over serialized component changes. -/
theorem mapM_componentChange :
    ∀ l : List ComponentChange, l.all ComponentChange.wireWF = true →
      (l.map ComponentChange.toDict).mapM ComponentChange.fromDict = .ok l
  | [], _ => rfl
  | c :: rest, h => by
    rw [List.all_cons, Bool.and_eq_true] at h
    rw [List.map_cons, List.mapM_cons, componentChange_roundtrip c h.1,
        mapM_componentChange rest h.2]
    rfl

/-- Elementwise round-trip over serialized game events. -/
theorem mapM_gameEvent :
    ∀ l : List GameEvent, l.all GameEvent.wireWF = true →
      (l.map GameEvent.toDict).mapM GameEvent.fromDict = .ok l
  | [], _ => rfl
  | e :: rest, h => by
    rw [List.all_cons, Bool.and_eq_true] at h
    rw [List.map_cons, List.mapM_cons, gameEvent_roundtrip e h.1,
        mapM_gameEvent rest h.2]
    rfl

/-- `str` applied back over serialized strings is the identity. -/
theorem map_pyStr_str : ∀ l : List String, (l.map Value.str).map pyStr = l
  | [] => rfl
  | s :: rest => by
    rw [List.map_cons, List.map_cons, map_pyStr_str rest]
    rfl

/-- `TickManifest.from_dict` inverts `to_dict` when every stored causal
reason is canonical. -/
theorem tickManifest_roundtrip (m : TickManifest) (h : m.wireWF = true) :
    TickManifest.fromDict m.toDict = .ok m := by
  rw [TickManifest.wireWF, Bool.and_eq_true] at h
  have gen : ∀ (x1 x2 : Except PyErr (List ℤ))
      (x3 : Except PyErr (List ComponentChange))
      (x4 : Except PyErr (List GameEvent))
      (x5 : Except PyErr Aggregates),
      x1 = .ok m.entity_spawns → x2 = .ok m.entity_despawns →
      x3 = .ok m.component_changes → x4 = .ok m.events →
      x5 = .ok m.aggregates →
      Except.bind x1 (fun spawns =>
        Except.bind x2 (fun despawns =>
          Except.bind x3 (fun changes =>
            Except.bind x4 (fun events =>
              Except.bind x5 (fun aggregates =>
                Except.bind (pyInt (.int m.tick)) (fun tick =>
                  Except.bind (pyFloat (.float m.sim_time)) (fun sim_time =>
                    Except.bind (pyInt (.int m.commands_processed))
                      (fun commands_processed =>
                        Except.bind (pyInt (.int m.commands_succeeded))
                          (fun commands_succeeded =>
                            Except.ok (TickManifest.mk tick sim_time spawns
                              despawns changes events aggregates
                              ((m.systems_executed.map Value.str).map pyStr)
                              commands_processed
                              commands_succeeded))))))))))
        = .ok m := by
    intro x1 x2 x3 x4 x5 h1 h2 h3 h4 h5
    rw [h1, h2, h3, h4, h5, map_pyStr_str]
    rfl
  exact gen _ _ _ _ _
    (mapM_parseEntityId_ints m.entity_spawns)
    (mapM_parseEntityId_ints m.entity_despawns)
    (mapM_componentChange m.component_changes h.1)
    (mapM_gameEvent m.events h.2)
    (aggregates_roundtrip m.aggregates)

/-- The `str(raw) if raw is not None else None` idiom inverts `optStr`. -/
theorem optStrOfValue_optStr : ∀ o : Option String, optStrOfValue (optStr o) = o
  | Option.none => rfl
  | some s => rfl

/-- `IntentSpec.from_dict` inverts `to_dict` on kind-well-formed intents
(off-kind fields at their dataclass defaults). -/
theorem intentSpec_roundtrip (s : IntentSpec) (h : s.wireWF) :
    IntentSpec.fromDict s.toDict = .ok s := by
  obtain ⟨nm, kd, ds, et, er, me, mv, rc, tr, ex, tmo, m1, m2, m3, m4, cond⟩ := s
  cases kd with
  | entity =>
    obtain ⟨rfl, rfl, rfl, rfl, rfl, rfl, rfl, rfl⟩ := h
    have key : IntentSpec.fromDict
        (IntentSpec.toDict (IntentSpec.mk nm .entity ds et er me mv rc
          Option.none Option.none 600 Option.none Option.none Option.none
          Option.none Option.none))
        = .ok (IntentSpec.mk nm .entity ds (optStrOfValue (optStr et))
            (optStrOfValue (optStr er)) me mv ((rc.map Value.str).map pyStr)
            Option.none Option.none 600 Option.none Option.none Option.none
            Option.none Option.none) := rfl
    rw [key, optStrOfValue_optStr, optStrOfValue_optStr, map_pyStr_str]
  | behavior =>
    obtain ⟨rfl, rfl, rfl, rfl, rfl, rfl, rfl, rfl, rfl, rfl⟩ := h
    have gen : ∀ (x : Except PyErr (Option Trigger))
        (y : Except PyErr (Option Expected)),
        x = .ok tr → y = .ok ex →
        Except.bind x (fun trigger =>
          Except.bind y (fun expected =>
            Except.bind (pyInt (.int tmo)) (fun timeout_ticks =>
              Except.ok (IntentSpec.mk nm .behavior ds Option.none
                Option.none true true [] trigger expected timeout_ticks
                Option.none Option.none Option.none Option.none
                Option.none)))) =
          .ok (IntentSpec.mk nm .behavior ds Option.none Option.none
            true true [] tr ex tmo Option.none Option.none Option.none
            Option.none Option.none) := by
      intro x y hx hy
      rw [hx, hy]
      rfl
    cases tr with
    | none =>
      cases ex with
      | none => exact gen _ _ rfl rfl
      | some e =>
        cases e with
        | mk ety eps ecs =>
          have hy : (Expected.fromDict
              (Expected.toDict (Expected.mk ety eps ecs))).map some
              = .ok (some (Expected.mk ety eps ecs)) := by
            rw [expected_roundtrip]
            rfl
          exact gen _ _ rfl hy
    | some t =>
      cases t with
      | mk tty tps tcs =>
        have hx : (Trigger.fromDict
            (Trigger.toDict (Trigger.mk tty tps tcs))).map some
            = .ok (some (Trigger.mk tty tps tcs)) := by
          rw [trigger_roundtrip]
          rfl
        cases ex with
        | none => exact gen _ _ hx rfl
        | some e =>
          cases e with
          | mk ety eps ecs =>
            have hy : (Expected.fromDict
                (Expected.toDict (Expected.mk ety eps ecs))).map some
                = .ok (some (Expected.mk ety eps ecs)) := by
              rw [expected_roundtrip]
              rfl
            exact gen _ _ hx hy
  | metric =>
    obtain ⟨rfl, rfl, rfl, rfl, rfl, rfl, rfl, rfl, rfl⟩ := h
    cases m4 with
    | none =>
      have key : IntentSpec.fromDict
          (IntentSpec.toDict (IntentSpec.mk nm .metric ds Option.none
            Option.none true true [] Option.none Option.none 600 m1 m2 m3
            Option.none Option.none))
          = .ok (IntentSpec.mk nm .metric ds Option.none Option.none
              true true [] Option.none Option.none 600
              (optStrOfValue (optStr m1)) (optStrOfValue (optStr m2))
              (optStrOfValue (optStr m3)) Option.none Option.none) := rfl
      rw [key, optStrOfValue_optStr, optStrOfValue_optStr,
          optStrOfValue_optStr]
    | some p =>
      obtain ⟨a, b⟩ := p
      have key : IntentSpec.fromDict
          (IntentSpec.toDict (IntentSpec.mk nm .metric ds Option.none
            Option.none true true [] Option.none Option.none 600 m1 m2 m3
            (some (a, b)) Option.none))
          = .ok (IntentSpec.mk nm .metric ds Option.none Option.none
              true true [] Option.none Option.none 600
              (optStrOfValue (optStr m1)) (optStrOfValue (optStr m2))
              (optStrOfValue (optStr m3)) (some (a, b)) Option.none) := rfl
      rw [key, optStrOfValue_optStr, optStrOfValue_optStr,
          optStrOfValue_optStr]
  | invariant =>
    obtain ⟨rfl, rfl, rfl, rfl, rfl, rfl, rfl, rfl, rfl, rfl, rfl, rfl⟩ := h
    have key : IntentSpec.fromDict
        (IntentSpec.toDict (IntentSpec.mk nm .invariant ds Option.none
          Option.none true true [] Option.none Option.none 600 Option.none
          Option.none Option.none Option.none cond))
        = .ok (IntentSpec.mk nm .invariant ds Option.none Option.none
            true true [] Option.none Option.none 600 Option.none Option.none
            Option.none Option.none (optStrOfValue (optStr cond))) := rfl
    rw [key, optStrOfValue_optStr]

/-- Elementwise round-trip over serialized intents. -/
theorem mapM_intentSpec :
    ∀ l : List IntentSpec, (∀ i ∈ l, i.wireWF) →
      (l.map IntentSpec.toDict).mapM IntentSpec.fromDict = .ok l
  | [], _ => rfl
  | i :: rest, h => by
    rw [List.map_cons, List.mapM_cons,
        intentSpec_roundtrip i (h i (List.mem_cons_self _ _)),
        mapM_intentSpec rest (fun x hx => h x (List.mem_cons_of_mem _ hx))]
    rfl

/-- `VerificationSuite.from_dict` inverts `to_dict` on suites of
kind-well-formed intents. -/
theorem suite_roundtrip (s : VerificationSuite) (h : s.wireWF) :
    VerificationSuite.fromDict s.toDict = .ok s := by
  have gen : ∀ x : Except PyErr (List IntentSpec),
      x = .ok s.intents →
      Except.bind x (fun intents =>
        Except.ok (VerificationSuite.mk s.name s.description intents))
        = .ok s := by
    intro x hx
    rw [hx]
    rfl
  exact gen _ (mapM_intentSpec s.intents h)

/-- C2: wire-format round-trips. Triggers and expected outcomes
round-trip unconditionally (composites, empty children lists and all);
causal reasons round-trip for canonical details (scalar or structured);
component changes, game events and tick manifests round-trip when their
stored reasons are canonical; intents round-trip when the off-kind
optional fields sit at their dataclass defaults, and suites of such
intents round-trip. -/
theorem wire_roundtrip :
    (∀ t : Trigger, Trigger.fromDict t.toDict = .ok t) ∧
    (∀ e : Expected, Expected.fromDict e.toDict = .ok e) ∧
    (∀ rt rd : String, reasonCanonical rt rd = true →
      parseReason (reasonToDict rt rd) = (rt, rd)) ∧
    (∀ c : ComponentChange, c.wireWF = true →
      ComponentChange.fromDict c.toDict = .ok c) ∧
    (∀ e : GameEvent, e.wireWF = true →
      GameEvent.fromDict e.toDict = .ok e) ∧
    (∀ m : TickManifest, m.wireWF = true →
      TickManifest.fromDict m.toDict = .ok m) ∧
    (∀ s : IntentSpec, s.wireWF → IntentSpec.fromDict s.toDict = .ok s) ∧
    (∀ s : VerificationSuite, s.wireWF →
      VerificationSuite.fromDict s.toDict = .ok s) :=
  ⟨trigger_roundtrip, expected_roundtrip, reason_roundtrip,
   componentChange_roundtrip, gameEvent_roundtrip, tickManifest_roundtrip,
   intentSpec_roundtrip, suite_roundtrip⟩

/-- C2 (witness): a component change carrying a structured
CollisionResponse payload, and a behavior intent with a composite
trigger, both round-trip. -/
theorem wire_roundtrip_witness :
    ComponentChange.fromDict
      (ComponentChange.toDict
        { entity_id := 1, component_type_name := "position",
          old_value := .none,
          new_value := .dict [("x", .float (.fin 1))],
          changed_by_system := 2, reason_type := "CollisionResponse",
          reason_detail := "[0,1]", command_index := 0, tick := 5 })
      = .ok { entity_id := 1, component_type_name := "position",
              old_value := .none,
              new_value := .dict [("x", .float (.fin 1))],
              changed_by_system := 2, reason_type := "CollisionResponse",
              reason_detail := "[0,1]", command_index := 0, tick := 5 } ∧
    IntentSpec.fromDict
      (IntentSpec.toDict
        { name := "i", kind := .behavior, description := "",
          trigger := some (and_ [collision "a" "b", tick_reached 3]),
          expected := Option.none, timeout_ticks := 42 })
      = .ok { name := "i", kind := .behavior, description := "",
              trigger := some (and_ [collision "a" "b", tick_reached 3]),
              expected := Option.none, timeout_ticks := 42 } :=
  ⟨wire_roundtrip.2.2.2.1
     { entity_id := 1, component_type_name := "position",
       old_value := .none,
       new_value := .dict [("x", .float (.fin 1))],
       changed_by_system := 2, reason_type := "CollisionResponse",
       reason_detail := "[0,1]", command_index := 0, tick := 5 } rfl,
   wire_roundtrip.2.2.2.2.2.2.1
     { name := "i", kind := .behavior, description := "",
       trigger := some (and_ [collision "a" "b", tick_reached 3]),
       expected := Option.none, timeout_ticks := 42 }
     ⟨rfl, rfl, rfl, rfl, rfl, rfl, rfl, rfl, rfl, rfl⟩⟩

end Nomai
